import Mathlib

/-!
# rocoma_ros::ControllerManagerRos: controller setup and service handlers

Shallow embedding of `ControllerManagerRos.tpp`: the setup functions
(`setupControllerPair`, `setupFailproofController`, `setupControllers`,
`setupControllersFromParameterServer`), the service handlers
(`switchController`, `emergencyStop`) and the emergency-stop topic (its set-up
in the constructor, `notifyEmergencyStop`, `publishEmergencyState`).  The
emergency stop of the base class, whose code is not at hand, follows the
specification.

Conventions of the embedding

* The code is stateful and talks to collaborators whose code is not part of
  the sources at hand: the five `pluginlib::ClassLoader`s, the base class
  `rocoma::ControllerManager` (`addControllerPair`, `setFailproofController`),
  the ROS parameter server and `ros::package::getPath`.  They are the fields
  of `Env`; every function of the embedding is parametric in them.
* State is passed explicitly (`ManagerState`): the state of the base manager
  and the log of the calls made into the collaborators, oldest call first.
* `createUnmanagedInstance` throws a `pluginlib::PluginlibException` or
  returns a fresh instance; it is embedded as an `Option`.  The setters
  called on a fresh instance (`setNodeHandle`, `setStateAndCommand`,
  `setParameterPath`) do not throw.
* A `bool` function whose control reaches the closing brace without a
  `return` statement yields no defined value: its result is `none`.  The
  caller goes on; a conjunction with an undefined operand is undefined.
* `exit(-1)` ends the run: `Outcome.exited (-1)`.
* The messages written with `MELO_INFO`, `MELO_WARN`, `MELO_ERROR` and
  `MELO_FATAL` are left out.
-/

namespace rocoma_ros

/-! ## Options (ControllerManagerRos.hpp) -/

/-- Struct `ManagedModuleOptions`; the field defaults are those of the default constructor. -/
structure ManagedModuleOptions where
  pluginName_ : String := ""
  name_ : String := ""
  parameterPath_ : String := ""
  isRos_ : Bool := false
deriving DecidableEq, Repr

/-- Struct `ManagedControllerOptions : public ManagedModuleOptions`. -/
structure ManagedControllerOptions extends ManagedModuleOptions where
  sharedModuleNames_ : List String := []
deriving DecidableEq, Repr

/-- The name `ControllerOptions` under which the `.tpp` uses the options struct. -/
abbrev ControllerOptions := ManagedControllerOptions

/-- The alias `ManagedControllerOptionsPair`: a `std::pair` (nominal first, emergency second). -/
abbrev ManagedControllerOptionsPair := ManagedControllerOptions × ManagedControllerOptions

/-- The name `ControllerOptionsPair` under which the `.tpp` uses the pair. -/
abbrev ControllerOptionsPair := ManagedControllerOptionsPair

/-! ## Collaborators -/

/-- The five class loaders that are members of `ControllerManagerRos`. -/
inductive LoaderKind where
  | failproofControllerLoader_
  | emergencyControllerLoader_
  | emergencyControllerRosLoader_
  | controllerLoader_
  | controllerRosLoader_
deriving DecidableEq, Repr

/-- An instance made by a class loader, with what the setters have stored in it. -/
structure PluginInstance where
  loader : LoaderKind
  lookupName : String
  nodeHandleSet : Bool := false
  stateAndCommandSet : Bool := false
  parameterPath : Option String := none
deriving DecidableEq, Repr

/-- Member call `setNodeHandle(nodeHandle_)`. -/
def PluginInstance.setNodeHandle (p : PluginInstance) : PluginInstance :=
  { p with nodeHandleSet := true }

/-- Member call `setStateAndCommand(state, mutexState, command, mutexCommand)`. -/
def PluginInstance.setStateAndCommand (p : PluginInstance) : PluginInstance :=
  { p with stateAndCommandSet := true }

/-- Member call `setParameterPath(path)`. -/
def PluginInstance.setParameterPath (p : PluginInstance) (path : String) : PluginInstance :=
  { p with parameterPath := some path }

/-- Values of the parameter server (`XmlRpc::XmlRpcValue`), one constructor per
member of its union (`asBool`, `asInt`, ...) and one for the invalid value.
The code reads the payload of booleans, strings, arrays and structs only.  A
struct is a `std::map`; it is kept as an association list read at the first
match. -/
inductive XmlRpcValue where
  | invalid
  | asBool (value : Bool)
  | asInt (value : Int)
  | asDouble
  | asString (value : String)
  | asTime
  | asBinary
  | asArray (values : List XmlRpcValue)
  | asStruct (members : List (String × XmlRpcValue))

/-- The enum `XmlRpcValue::Type`. -/
inductive XmlRpcType where
  | TypeInvalid
  | TypeBoolean
  | TypeInt
  | TypeDouble
  | TypeString
  | TypeDateTime
  | TypeBase64
  | TypeArray
  | TypeStruct
deriving DecidableEq, Repr

/-- Method `XmlRpcValue::getType`. -/
def XmlRpcValue.getType : XmlRpcValue → XmlRpcType
  | .invalid => .TypeInvalid
  | .asBool _ => .TypeBoolean
  | .asInt _ => .TypeInt
  | .asDouble => .TypeDouble
  | .asString _ => .TypeString
  | .asTime => .TypeDateTime
  | .asBinary => .TypeBase64
  | .asArray _ => .TypeArray
  | .asStruct _ => .TypeStruct

/-- Look a key up in the members of a struct, first match. -/
def lookupMember : List (String × XmlRpcValue) → String → Option XmlRpcValue
  | [], _ => none
  | (k, v) :: rest, name => if k == name then some v else lookupMember rest name

/-- Method `XmlRpcValue::hasMember`: the value is a struct and has the member. -/
def XmlRpcValue.hasMember : XmlRpcValue → String → Bool
  | .asStruct members, name => (lookupMember members name).isSome
  | _, _ => false

/-- The subscript `value[name]`.  The code applies it only to structs, after
`hasMember`; elsewhere the embedding yields the invalid value. -/
def XmlRpcValue.member : XmlRpcValue → String → XmlRpcValue
  | .asStruct members, name => (lookupMember members name).getD .invalid
  | _, _ => .invalid

/-- The conversion `static_cast<std::string>(value)`, applied by the code to
values of `TypeString` only. -/
def XmlRpcValue.toStdString : XmlRpcValue → String
  | .asString value => value
  | _ => ""

/-- The conversion `static_cast<bool>(value)`, applied by the code to values of
`TypeBoolean` only. -/
def XmlRpcValue.toBool : XmlRpcValue → Bool
  | .asBool value => value
  | _ => false

/-- A call into a collaborator, as kept in the log. -/
inductive Event where
  | getParam (key : String) (found : Bool)
  | createUnmanagedInstance (loader : LoaderKind) (lookupName : String) (loaded : Bool)
  | addControllerPair (controller : PluginInstance) (emergency : Option PluginInstance)
      (accepted : Bool)
  | setFailproofController (controller : PluginInstance) (accepted : Bool)
deriving DecidableEq, Repr

/-- The collaborators of `ControllerManagerRos`, over the state `M` of the base
class `rocoma::ControllerManager`.

* `classAvailable l n`: loader `l` resolves the lookup name `n`
  (otherwise `createUnmanagedInstance` throws);
* `addControllerPair`, `setFailproofController`: the two methods of the base
  class, returning their `bool` and the next state of the base manager;
* `param`: the parameter server as seen through `nodeHandle_`;
* `getPath`: `ros::package::getPath`. -/
structure Env (M : Type) where
  classAvailable : LoaderKind → String → Bool
  addControllerPair : M → PluginInstance → Option PluginInstance → Bool × M
  setFailproofController : M → PluginInstance → Bool × M
  param : String → Option XmlRpcValue
  getPath : String → String

/-- State threaded through the setup code. -/
structure ManagerState (M : Type) where
  manager : M
  log : List Event
deriving DecidableEq

/-- How a function that may call `exit` ends: it returns (`none`: without a
defined value) or the process exits with `code`. -/
inductive Outcome where
  | returned (value : Option Bool)
  | exited (code : Int)
deriving DecidableEq, Repr

/-- Append one call to the log. -/
def ManagerState.record {M : Type} (s : ManagerState M) (e : Event) : ManagerState M :=
  { s with log := s.log ++ [e] }

/-- Call `loader.createUnmanagedInstance(lookupName)`; `none` is the thrown
`pluginlib::PluginlibException`. -/
def createUnmanagedInstance {M : Type} (env : Env M) (loader : LoaderKind)
    (lookupName : String) (s : ManagerState M) : Option PluginInstance × ManagerState M :=
  if env.classAvailable loader lookupName then
    (some { loader := loader, lookupName := lookupName },
      s.record (Event.createUnmanagedInstance loader lookupName true))
  else
    (none, s.record (Event.createUnmanagedInstance loader lookupName false))

/-- Call `this->addControllerPair(controller, emgcyController)`. -/
def addControllerPair {M : Type} (env : Env M) (controller : PluginInstance)
    (emgcyController : Option PluginInstance) (s : ManagerState M) : Bool × ManagerState M :=
  let r := env.addControllerPair s.manager controller emgcyController
  (r.1, { manager := r.2, log := s.log ++ [Event.addControllerPair controller emgcyController r.1] })

/-- Call `this->setFailproofController(controller)`. -/
def setFailproofController {M : Type} (env : Env M) (controller : PluginInstance)
    (s : ManagerState M) : Bool × ManagerState M :=
  let r := env.setFailproofController s.manager controller
  (r.1, { manager := r.2, log := s.log ++ [Event.setFailproofController controller r.1] })

/-- Call `nodeHandle_.getParam(key, std::string&)`: succeeds when the key is set
to a string. -/
def getParamString {M : Type} (env : Env M) (key : String) (s : ManagerState M) :
    Option String × ManagerState M :=
  match env.param key with
  | some (.asString value) => (some value, s.record (Event.getParam key true))
  | _ => (none, s.record (Event.getParam key false))

/-- Call `nodeHandle_.getParam(key, XmlRpc::XmlRpcValue&)`: succeeds when the key
is set. -/
def getParamXmlRpc {M : Type} (env : Env M) (key : String) (s : ManagerState M) :
    Option XmlRpcValue × ManagerState M :=
  match env.param key with
  | some value => (some value, s.record (Event.getParam key true))
  | none => (none, s.record (Event.getParam key false))

/-! ## ControllerManagerRos.tpp -/

/-- The first `try` block of `setupControllerPair` (lines 47-72): the nominal
controller, or `none` when the `catch` clause is entered. -/
def loadController {M : Type} (env : Env M) (options : ControllerOptionsPair)
    (s : ManagerState M) : Option PluginInstance × ManagerState M :=
  if options.1.isRos_ then
    match createUnmanagedInstance env LoaderKind.controllerRosLoader_ options.1.name_ s with
    | (some rosController, s1) =>
      (some ((rosController.setNodeHandle.setStateAndCommand).setParameterPath
        options.1.parameterPath_), s1)
    | (none, s1) => (none, s1)
  else
    match createUnmanagedInstance env LoaderKind.controllerLoader_ options.1.name_ s with
    | (some controller, s1) =>
      (some (controller.setStateAndCommand.setParameterPath options.1.parameterPath_), s1)
    | (none, s1) => (none, s1)

/-- Lines 75-105 of `setupControllerPair`: the pointer `emgcyController` after
the `if(!options.second.name_.empty())` block; `none` is `nullptr`. -/
def loadEmergencyController {M : Type} (env : Env M) (options : ControllerOptionsPair)
    (s : ManagerState M) : Option PluginInstance × ManagerState M :=
  if !(options.2.name_ == "") then
    if options.2.isRos_ then
      match createUnmanagedInstance env LoaderKind.emergencyControllerRosLoader_
          options.2.name_ s with
      | (some rosEmergencyController, s1) =>
        (some ((rosEmergencyController.setNodeHandle.setStateAndCommand).setParameterPath
          options.2.parameterPath_), s1)
      | (none, s1) => (none, s1)
    else
      match createUnmanagedInstance env LoaderKind.emergencyControllerLoader_
          options.2.name_ s with
      | (some emgcyController, s1) =>
        (some (emgcyController.setStateAndCommand.setParameterPath options.2.parameterPath_), s1)
      | (none, s1) => (none, s1)
  else
    (none, s)

/-- Method `setupControllerPair`.  The result is `some false` at the two
`return false;` statements and `none` at the closing brace, which is reached
without a `return` when `addControllerPair` accepted the pair. -/
def setupControllerPair {M : Type} (env : Env M) (options : ControllerOptionsPair)
    (s : ManagerState M) : Option Bool × ManagerState M :=
  match loadController env options s with
  | (none, s1) => (some false, s1)
  | (some controller, s1) =>
    match loadEmergencyController env options s1 with
    | (emgcyController, s2) =>
      match addControllerPair env controller emgcyController s2 with
      | (false, s3) => (some false, s3)
      | (true, s3) => (none, s3)

/-- Method `setupFailproofController`. -/
def setupFailproofController {M : Type} (env : Env M) (controllerPluginName : String)
    (s : ManagerState M) : Bool × ManagerState M :=
  match createUnmanagedInstance env LoaderKind.failproofControllerLoader_
      controllerPluginName s with
  | (some controller, s1) =>
    match setFailproofController env controller.setStateAndCommand s1 with
    | (false, s2) => (false, s2)
    | (true, s2) => (true, s2)
  | (none, s1) => (false, s1)

/-- The statement `success = setupControllerPair(...) && success;` on values:
the left operand is the value the call returned (`none`: undefined). -/
def andSuccess (returned : Option Bool) (success : Option Bool) : Option Bool :=
  match returned, success with
  | some r, some b => some (r && b)
  | _, _ => none

/-- The range-`for` loop of `setupControllers` (lines 180-183). -/
def setupControllerPairs {M : Type} (env : Env M) :
    List ControllerOptionsPair → Option Bool → ManagerState M → Option Bool × ManagerState M
  | [], success, s => (success, s)
  | controllerPair :: rest, success, s =>
    match setupControllerPair env controllerPair s with
    | (r, s1) => setupControllerPairs env rest (andSuccess r success) s1

/-- Method `setupControllers`. -/
def setupControllers {M : Type} (env : Env M) (failproofControllerName : String)
    (controllerNameMap : List ControllerOptionsPair) (s : ManagerState M) :
    Outcome × ManagerState M :=
  match setupFailproofController env failproofControllerName s with
  | (false, s1) => (Outcome.exited (-1), s1)
  | (true, s1) =>
    match setupControllerPairs env controllerNameMap (some true) s1 with
    | (success, s2) => (Outcome.returned success, s2)

/-- The condition of lines 238-245 and again of lines 274-281: the four data
members are present with the types the code asks for. -/
def hasDataMembers (controller : XmlRpcValue) : Bool :=
  controller.hasMember "name" &&
  (controller.member "name").getType == XmlRpcType.TypeString &&
  controller.hasMember "is_ros" &&
  (controller.member "is_ros").getType == XmlRpcType.TypeBoolean &&
  controller.hasMember "parameter_package" &&
  (controller.member "parameter_package").getType == XmlRpcType.TypeString &&
  controller.hasMember "parameter_path" &&
  (controller.member "parameter_path").getType == XmlRpcType.TypeString

/-- The three assignments of lines 247-250 (to `.first`) and 283-286 (to
`.second`): `name_`, `isRos_` and `parameterPath_` are overwritten, the other
fields of the options are left as they are. -/
def assignDataMembers {M : Type} (env : Env M) (options : ControllerOptions)
    (controller : XmlRpcValue) : ControllerOptions :=
  { options with
    name_ := (controller.member "name").toStdString
    isRos_ := (controller.member "is_ros").toBool
    parameterPath_ := env.getPath (controller.member "parameter_package").toStdString ++ "/" ++
      (controller.member "parameter_path").toStdString }

/-- One pass through the body of the `for` loop of
`setupControllersFromParameterServer` (lines 216-296) for the array element
`entry`: the vector `controller_option_pairs` and the variable
`controller_option_pair`, which lives across the passes, before and after. -/
def parseControllerPair {M : Type} (env : Env M) (entry : XmlRpcValue)
    (controller_option_pairs : List ControllerOptionsPair)
    (controller_option_pair : ControllerOptionsPair) :
    List ControllerOptionsPair × ControllerOptionsPair :=
  if entry.getType != XmlRpcType.TypeStruct ||
      !entry.hasMember "controller_pair" ||
      (entry.member "controller_pair").getType != XmlRpcType.TypeStruct then
    (controller_option_pairs, controller_option_pair)
  else if (entry.member "controller_pair").hasMember "controller" &&
      ((entry.member "controller_pair").member "controller").getType
        == XmlRpcType.TypeStruct then
    let controller := (entry.member "controller_pair").member "controller"
    if hasDataMembers controller then
      let pair1 : ControllerOptionsPair :=
        (assignDataMembers env controller_option_pair.1 controller, controller_option_pair.2)
      if (entry.member "controller_pair").hasMember "emergency_controller" &&
          ((entry.member "controller_pair").member "emergency_controller").getType
            == XmlRpcType.TypeStruct then
        let controller := (entry.member "controller_pair").member "emergency_controller"
        if hasDataMembers controller then
          let pair2 : ControllerOptionsPair :=
            (pair1.1, assignDataMembers env pair1.2 controller)
          (controller_option_pairs ++ [pair2], pair2)
        else
          let pair2 : ControllerOptionsPair := (pair1.1, ({} : ControllerOptions))
          (controller_option_pairs ++ [pair2], pair2)
      else
        let pair2 : ControllerOptionsPair := (pair1.1, ({} : ControllerOptions))
        (controller_option_pairs ++ [pair2], pair2)
    else
      (controller_option_pairs, controller_option_pair)
  else
    (controller_option_pairs, controller_option_pair)

/-- The `for` loop over `controller_pair_list` (lines 214-297). -/
def parseControllerPairList {M : Type} (env : Env M) :
    List XmlRpcValue → List ControllerOptionsPair → ControllerOptionsPair →
    List ControllerOptionsPair × ControllerOptionsPair
  | [], controller_option_pairs, controller_option_pair =>
    (controller_option_pairs, controller_option_pair)
  | entry :: rest, controller_option_pairs, controller_option_pair =>
    match parseControllerPair env entry controller_option_pairs controller_option_pair with
    | (pairs1, pair1) => parseControllerPairList env rest pairs1 pair1

/-- Lines 202-303 of `setupControllersFromParameterServer`: the vector
`controller_option_pairs` handed to `setupControllers`, from what
`getParam("controller_manager/controller_pairs", ...)` gave (`none`: it
returned false). -/
def parseControllerList {M : Type} (env : Env M) (controller_pair_list : Option XmlRpcValue) :
    List ControllerOptionsPair :=
  match controller_pair_list with
  | none => []
  | some (.asArray entries) =>
    (parseControllerPairList env entries [] (({} : ControllerOptions), ({} : ControllerOptions))).1
  | some _ => []

/-- Method `setupControllersFromParameterServer`. -/
def setupControllersFromParameterServer {M : Type} (env : Env M) (s : ManagerState M) :
    Outcome × ManagerState M :=
  match getParamString env "controller_manager/failproof_controller" s with
  | (none, s1) => (Outcome.exited (-1), s1)
  | (some failproofControllerName, s1) =>
    match getParamXmlRpc env "controller_manager/controller_pairs" s1 with
    | (controller_pair_list, s2) =>
      setupControllers env failproofControllerName
        (parseControllerList env controller_pair_list) s2

/-! ## Reading the log -/

/-- The calls that set up a controller pair: an instantiation by one of the
four loaders of nominal and emergency controllers, or `addControllerPair`. -/
def Event.isPairSetup : Event → Bool
  | .createUnmanagedInstance .failproofControllerLoader_ _ _ => false
  | .createUnmanagedInstance _ _ _ => true
  | .addControllerPair _ _ _ => true
  | _ => false

/-- The loader that the nominal branch of `setupControllerPair` asks, by the
flag of the first options. -/
def nominalLoader (options : ControllerOptionsPair) : LoaderKind :=
  if options.1.isRos_ then LoaderKind.controllerRosLoader_ else LoaderKind.controllerLoader_

/-- The loader that the emergency branch of `setupControllerPair` asks, by the
flag of the second options. -/
def emergencyLoader (options : ControllerOptionsPair) : LoaderKind :=
  if options.2.isRos_ then LoaderKind.emergencyControllerRosLoader_
  else LoaderKind.emergencyControllerLoader_

/-- The nominal lookups in a log: loader and lookup name of every instantiation
asked of `controllerLoader_` or `controllerRosLoader_`, in the order of the log. -/
def nominalLookups : List Event → List (LoaderKind × String)
  | [] => []
  | .createUnmanagedInstance .controllerLoader_ n _ :: rest =>
    (LoaderKind.controllerLoader_, n) :: nominalLookups rest
  | .createUnmanagedInstance .controllerRosLoader_ n _ :: rest =>
    (LoaderKind.controllerRosLoader_, n) :: nominalLookups rest
  | _ :: rest => nominalLookups rest

/-- The values returned by the calls of `setupControllerPair` when it is run on
the pairs of the list one after the other from state `s`. -/
def setupControllerPairReturns {M : Type} (env : Env M) :
    List ControllerOptionsPair → ManagerState M → List (Option Bool)
  | [], _ => []
  | controllerPair :: rest, s =>
    (setupControllerPair env controllerPair s).1 ::
      setupControllerPairReturns env rest (setupControllerPair env controllerPair s).2

/-! ## Well-formed entries of `controller_pairs`

What the configuration schema asks of an entry, read off the value itself. -/

/-- The member `name` of `value` when `value` is a struct and the member is a struct. -/
def structMember (value : XmlRpcValue) (name : String) : Option XmlRpcValue :=
  match value with
  | .asStruct members =>
    match lookupMember members name with
    | some (.asStruct inner) => some (.asStruct inner)
    | _ => none
  | _ => none

/-- The member `name` of `value` when `value` is a struct and the member is a string. -/
def stringMember (value : XmlRpcValue) (name : String) : Option String :=
  match value with
  | .asStruct members =>
    match lookupMember members name with
    | some (.asString text) => some text
    | _ => none
  | _ => none

/-- The member `name` of `value` when `value` is a struct and the member is a boolean. -/
def boolMember (value : XmlRpcValue) (name : String) : Option Bool :=
  match value with
  | .asStruct members =>
    match lookupMember members name with
    | some (.asBool flag) => some flag
    | _ => none
  | _ => none

/-- A controller record with `name: string`, `is_ros: bool`,
`parameter_package: string` and `parameter_path: string`. -/
def wellFormedController (controller : XmlRpcValue) : Bool :=
  (stringMember controller "name").isSome && (boolMember controller "is_ros").isSome &&
  (stringMember controller "parameter_package").isSome &&
  (stringMember controller "parameter_path").isSome

/-- An entry that is a struct with a struct member `controller_pair` that has a
struct member `controller` which is a well-formed controller record. -/
def wellFormedEntry (entry : XmlRpcValue) : Bool :=
  match structMember entry "controller_pair" with
  | some controller_pair =>
    match structMember controller_pair "controller" with
    | some controller => wellFormedController controller
    | none => false
  | none => false

/-- An entry whose `controller_pair` has a struct member `emergency_controller`
which is a well-formed controller record. -/
def wellFormedEmergency (entry : XmlRpcValue) : Bool :=
  match structMember entry "controller_pair" with
  | some controller_pair =>
    match structMember controller_pair "emergency_controller" with
    | some controller => wellFormedController controller
    | none => false
  | none => false

/-- The values of the default-constructed `controller_option_pair` are kept in
the fields that the loop never assigns. -/
def unassignedFieldsDefault (pair : ControllerOptionsPair) : Prop :=
  pair.1.pluginName_ = "" ∧ pair.1.sharedModuleNames_ = [] ∧
  pair.2.pluginName_ = "" ∧ pair.2.sharedModuleNames_ = []

/-- The name of the nominal controller of an entry of `controller_pairs`, when
the entry is well formed. -/
def nominalName (entry : XmlRpcValue) : Option String :=
  match structMember entry "controller_pair" with
  | some controller_pair =>
    match structMember controller_pair "controller" with
    | some controller =>
      if wellFormedController controller then stringMember controller "name" else none
    | none => none
  | none => none

/-! ## Concrete collaborators

A small installation used to run the code on concrete inputs: the base manager
keeps the lookup names of the nominal controllers it holds and rejects a name
it holds already; the failproof controller `FP`, the nominal controllers
`WALK` (plain) and `TROT` (ROS) and the emergency controller `STAND` can be
loaded. -/

/-- Classes known to the loaders of `demoEnv`. -/
def demoClasses : List (LoaderKind × String) :=
  [(.failproofControllerLoader_, "FP"), (.controllerLoader_, "WALK"),
   (.controllerRosLoader_, "TROT"), (.emergencyControllerLoader_, "STAND")]

/-- Collaborators with the classes of `demoClasses` over the parameter server `param`. -/
def demoEnv (param : String → Option XmlRpcValue) : Env (List String) where
  classAvailable := fun loader lookupName => decide ((loader, lookupName) ∈ demoClasses)
  addControllerPair := fun held controller _ =>
    if controller.lookupName ∈ held then (false, held) else (true, held ++ [controller.lookupName])
  setFailproofController := fun held _ => (true, held)
  param := param
  getPath := fun package => "/opt/" ++ package

/-- The parameter server with no key set. -/
def noParams : String → Option XmlRpcValue := fun _ => none

/-- The state before any setup call. -/
def initialState : ManagerState (List String) := { manager := [], log := [] }

/-- Options of a plain controller called `name`. -/
def plainOptions (name : String) : ControllerOptions :=
  { name_ := name, parameterPath_ := "/opt/params/" ++ name }

/-- A controller record as the code reads it: the four data members, and a
`plugin_name` beside them. -/
def demoController (name : String) (isRos : Bool) : XmlRpcValue :=
  .asStruct [("plugin_name", .asString (name ++ "Plugin")), ("name", .asString name),
    ("is_ros", .asBool isRos), ("parameter_package", .asString "my_package"),
    ("parameter_path", .asString ("config/" ++ name ++ ".xml"))]

/-- An entry of `controller_pairs` with the members `members` under `controller_pair`. -/
def demoEntry (members : List (String × XmlRpcValue)) : XmlRpcValue :=
  .asStruct [("controller_pair", .asStruct members)]

/-- A parameter server whose `failproof_controller` is an integer. -/
def wrongTypedParams : String → Option XmlRpcValue := fun key =>
  if key == "controller_manager/failproof_controller" then some (.asInt 7)
  else if key == "controller_manager/controller_pairs" then
    some (.asArray [demoEntry [("controller", demoController "WALK" false)]])
  else none

/-- A parameter server with the failproof controller `FP` and three entries: the
first is not a struct, the second has the nominal controller `WALK` and an
`emergency_controller` that is a string, the third has `TROT` with the
emergency controller `STAND`. -/
def demoParams : String → Option XmlRpcValue := fun key =>
  if key == "controller_manager/failproof_controller" then some (.asString "FP")
  else if key == "controller_manager/controller_pairs" then
    some (.asArray
      [.asInt 3,
       demoEntry [("controller", demoController "WALK" false),
                  ("emergency_controller", .asString "STAND")],
       demoEntry [("controller", demoController "TROT" true),
                  ("emergency_controller", demoController "STAND" false)]])
  else none

/-- The first entry of the yaml pattern in the documentation of
`setupControllersFromParameterServer` (ControllerManagerRos.hpp, lines
247-259), key by key; the emergency controller has the key `package`. -/
def documentedEntry : XmlRpcValue :=
  demoEntry
    [("controller", .asStruct
       [("plugin_name", .asString "MyControllerPlugin"),
        ("name", .asString "MyController"),
        ("is_ros", .asBool true),
        ("parameter_package", .asString "my_controller_package"),
        ("parameter_path", .asString "my_param_folder/my_param_file.xml")]),
     ("emergency_controller", .asStruct
       [("plugin_name", .asString "MyEmergencyControllerPlugin"),
        ("name", .asString "MyEmergencyController "),
        ("is_ros", .asBool false),
        ("package", .asString "my_emergency_controller_package"),
        ("parameter_path",
          .asString "my_emergency_param_folder/my_emergency_param_file.xml")])]

/-- An entry whose controller has the plugin class `WALK`, known to
`controllerLoader_`, as `plugin_name` and another `name`. -/
def renamedEntry : XmlRpcValue :=
  demoEntry
    [("controller", .asStruct
       [("plugin_name", .asString "WALK"),
        ("name", .asString "walk_1"),
        ("is_ros", .asBool false),
        ("parameter_package", .asString "my_package"),
        ("parameter_path", .asString "config/walk_1.xml")])]

/-! ## The service handlers and the emergency-stop topic (ControllerManagerRos.tpp)

The handlers call the base class `rocoma::ControllerManager`, whose code and
declaration are not part of the sources at hand; they are embedded over the
call they make (`coreSwitchController`, `coreEmergencyStop`). -/

/-- Modelled from the spec: the enum `rocoma::ControllerManager::SwitchResponse`,
whose declaration is missing.  The responses of `switch_controller` are
`{Switched, Running, NotFound, Error}` (section 4.5); they are kept under the
names by which the `.tpp` refers to them, `SWITCHING` being `Switched`. -/
inductive SwitchResponse where
  | ERROR
  | NOTFOUND
  | RUNNING
  | SWITCHING
deriving DecidableEq, Repr

/-- Modelled from the spec: the status constants of the response of
`rocoma_msgs::SwitchController`, whose declaration is missing: the schema is
out `{ status: enum {ERROR, NOTFOUND, RUNNING, SWITCHED} }` (section 6). -/
inductive SwitchControllerStatus where
  | STATUS_ERROR
  | STATUS_NOTFOUND
  | STATUS_RUNNING
  | STATUS_SWITCHED
deriving DecidableEq, Repr

/-- The `switch` statement of the handler `switchController` (lines 325-338):
the value assigned to `res.status`. -/
def switchStatus : SwitchResponse → SwitchControllerStatus
  | .ERROR => .STATUS_ERROR
  | .NOTFOUND => .STATUS_NOTFOUND
  | .RUNNING => .STATUS_RUNNING
  | .SWITCHING => .STATUS_SWITCHED

/-- Service handler `switchController(req, res)`: the returned `bool`, the
`res.status` it leaves and the state of the base manager after the call
`rocoma::ControllerManager::switchController(req.name)`.  Every case of the
`switch` assigns `res.status`, so its value before the call is no input. -/
def switchController {C : Type} (coreSwitchController : String → C → SwitchResponse × C)
    (req_name : String) (c : C) : Bool × SwitchControllerStatus × C :=
  match coreSwitchController req_name c with
  | (response, c1) => (true, switchStatus response, c1)

/-- Service handler `emergencyStop(req, res)`: it returns what
`rocoma::ControllerManager::emergencyStop()` returns. -/
def emergencyStop {C : Type} (coreEmergencyStop : C → Bool × C) (c : C) : Bool × C :=
  coreEmergencyStop c

/-- The message `any_msgs::State` as far as the code fills it. -/
structure any_msgs.State where
  stamp : Nat
  is_ok : Bool
deriving DecidableEq, Repr

/-- Modelled from the spec: the enum `rocoma::ControllerManager::EmergencyStopType`,
whose declaration is missing: an emergency stop is operator-initiated
(`OperatorEmergencyStop`) or synthesised after a failed `advance`
(`FailureEmergencyStop`) (section 4.4). -/
inductive EmergencyStopType where
  | OperatorEmergencyStop
  | FailureEmergencyStop
deriving DecidableEq, Repr

/-- The members behind the topic `notify_emergency_stop`: the message member
`emergencyStopStateMsg_`, the messages handed to
`emergencyStopStatePublisher_.publish`, oldest first, and the number of calls
of `ros::Time::now()` made so far. -/
structure EmergencyStopTopic where
  emergencyStopStateMsg_ : any_msgs.State
  published : List any_msgs.State
  timeCalls : Nat
deriving DecidableEq, Repr

/-- Method `publishEmergencyState(isOk)`; `now k` is what the call number `k` of
`ros::Time::now()` returns. -/
def publishEmergencyState (now : Nat → Nat) (isOk : Bool) (t : EmergencyStopTopic) :
    EmergencyStopTopic :=
  let msg : any_msgs.State := { stamp := now t.timeCalls, is_ok := isOk }
  { emergencyStopStateMsg_ := msg
    published := t.published ++ [msg]
    timeCalls := t.timeCalls + 1 }

/-- Method `notifyEmergencyStop(type)`. -/
def notifyEmergencyStop (now : Nat → Nat) (_type : EmergencyStopType) (t : EmergencyStopTopic) :
    EmergencyStopTopic :=
  publishEmergencyState now true (publishEmergencyState now false t)

/-! ## The emergency stop of the core manager

The code of `rocoma::ControllerManager` (`switchController(name)`,
`emergencyStop()`, `clearEmergencyStop()`) is not part of the sources at hand.
The definitions of this section follow section 4.4 and 4.5 of the
specification.  Requests are serialised on the manager lock and each runs to
its end, so the state is the one between two requests, where the phase is
`Idle`.  The event `switch(name)` is left out: the guards of its rows in the
transition table overlap (a name out of the registry, asked for while the
emergency stop is latched, meets the row that answers `NotFound` and the row
that answers `Error`) and the specification gives no order among them. -/

/-- Modelled from the spec: `ControllerRecord` (section 3), which is missing
from the sources, with the two fields the state machine reads: the name,
unique within the registry, and the name of the paired emergency controller,
if there is one. -/
structure ControllerRecord where
  name : String
  emergency : Option String
deriving DecidableEq, Repr

/-- Modelled from the spec: what the state machine of section 4.4, which is
missing from the sources, runs over: the failproof controller, the registry,
whether `initialise` of a controller succeeds, and the response to a switch
whose target fails to initialise, which the table leaves open. -/
structure CoreManager where
  failproof : String
  registry : List ControllerRecord
  initialise : String → Bool
  initFailResponse : SwitchResponse

/-- Modelled from the spec: `ManagerState` (section 3) of the missing core
manager, between two requests: the active controller and `estop_latched`. -/
structure CoreState where
  active : String
  estop_latched : Bool
deriving DecidableEq, Repr

/-- Modelled from the spec: the paired emergency controller of the record
called `name`, for the missing emergency-stop protocol ("if `cur` has a paired
emergency controller"). -/
def CoreManager.pairedEmergency (core : CoreManager) (name : String) : Option String :=
  match core.registry.find? (fun record => record.name == name) with
  | some record => record.emergency
  | none => none

/-- Modelled from the spec: steps 2 and 3 of the missing emergency-stop
protocol: `next` is the paired emergency controller of `cur` if there is one,
else the failproof controller; if the initialisation of `next` fails, `next`
is the failproof controller. -/
def CoreManager.fallback (core : CoreManager) (cur : String) : String :=
  match core.pairedEmergency cur with
  | some emergency => if core.initialise emergency then emergency else core.failproof
  | none => core.failproof

/-- Modelled from the spec: the missing `emergency_stop()`: re-entering while
latched is a no-op success (section 4.5); otherwise the active controller
becomes the fallback of the active one and `estop_latched` is set (section
4.4, steps 1 to 7). -/
def emergency_stop (core : CoreManager) (s : CoreState) : CoreState :=
  if s.estop_latched then s
  else { active := core.fallback s.active, estop_latched := true }

/-- Modelled from the spec: the missing `clear_emergency_stop()`: `Error`
(false) if not latched, else `estop_latched` is reset. -/
def clear_emergency_stop (s : CoreState) : Bool × CoreState :=
  if s.estop_latched then (true, { s with estop_latched := false }) else (false, s)

/-- The core of scenario 1: failproof `FP` and the pair (`WALK`, `STAND`);
every initialisation succeeds. -/
def demoCore : CoreManager where
  failproof := "FP"
  registry := [{ name := "WALK", emergency := some "STAND" }]
  initialise := fun _ => true
  initFailResponse := SwitchResponse.ERROR

/-! ## Further readings of the log and of the parsed options -/

/-- The calls of `addControllerPair` in a log. -/
def Event.isAddControllerPair : Event → Bool
  | .addControllerPair _ _ _ => true
  | _ => false

/-- The instantiations asked of one of the two loaders of emergency controllers. -/
def Event.isEmergencyInstantiation : Event → Bool
  | .createUnmanagedInstance .emergencyControllerLoader_ _ _ => true
  | .createUnmanagedInstance .emergencyControllerRosLoader_ _ _ => true
  | _ => false

/-- What the configuration sets in a parsed pair: name, `is_ros` flag and
parameter path of the nominal and of the emergency options. -/
def configuredFields (pair : ControllerOptionsPair) :
    (String × Bool × String) × (String × Bool × String) :=
  ((pair.1.name_, pair.1.isRos_, pair.1.parameterPath_),
   (pair.2.name_, pair.2.isRos_, pair.2.parameterPath_))

/-- The part of the constructor `ControllerManagerRos` that sets up the topic
`notify_emergency_stop` (lines 26-29): the publisher is advertised anew,
latched, and `publishEmergencyState(true)` is called; `timeCalls` is the number
of calls of `ros::Time::now()` made before.  The message member starts as the
default `any_msgs::State`. -/
def ControllerManagerRos (now : Nat → Nat) (timeCalls : Nat) : EmergencyStopTopic :=
  publishEmergencyState now true
    { emergencyStopStateMsg_ := { stamp := 0, is_ok := false }
      published := []
      timeCalls := timeCalls }

/-- The retained value of the latched topic: the last message published. -/
def EmergencyStopTopic.retained (t : EmergencyStopTopic) : Option any_msgs.State :=
  t.published.getLast?

/-- A parameter server with the failproof controller `FP` whose
`controller_pairs` is a string. -/
def noArrayParams : String → Option XmlRpcValue := fun key =>
  if key == "controller_manager/failproof_controller" then some (.asString "FP")
  else if key == "controller_manager/controller_pairs" then some (.asString "WALK")
  else none

/-! ## The loop of `setupControllers` over the values its calls return

The value of a call of `setupControllerPair` that ends without a `return`
statement is not fixed by the code; what the caller reads is whatever the call
left behind.  The loop is therefore also given over the call made in its body,
so that it can be run on every value the calls may be read to return. -/

/-- The range-`for` loop of `setupControllers` (lines 180-183), with `setupPair`
for the call `setupControllerPair(controllerPair, ...)` made in its body. -/
def setupControllerPairsWith {M : Type}
    (setupPair : ControllerOptionsPair → ManagerState M → Option Bool × ManagerState M) :
    List ControllerOptionsPair → Option Bool → ManagerState M → Option Bool × ManagerState M
  | [], success, s => (success, s)
  | controllerPair :: rest, success, s =>
    match setupPair controllerPair s with
    | (r, s1) => setupControllerPairsWith setupPair rest (andSuccess r success) s1

/-- Method `setupControllers`, with `setupPair` for the call
`setupControllerPair(controllerPair, ...)` made in the body of its loop. -/
def setupControllersWith {M : Type} (env : Env M)
    (setupPair : ControllerOptionsPair → ManagerState M → Option Bool × ManagerState M)
    (failproofControllerName : String) (controllerNameMap : List ControllerOptionsPair)
    (s : ManagerState M) : Outcome × ManagerState M :=
  match setupFailproofController env failproofControllerName s with
  | (false, s1) => (Outcome.exited (-1), s1)
  | (true, s1) =>
    match setupControllerPairsWith setupPair controllerNameMap (some true) s1 with
    | (success, s2) => (Outcome.returned success, s2)

/-- The values returned by the calls `setupPair` when it is run on the pairs of
the list one after the other from state `s`. -/
def setupPairReturns {M : Type}
    (setupPair : ControllerOptionsPair → ManagerState M → Option Bool × ManagerState M) :
    List ControllerOptionsPair → ManagerState M → List (Option Bool)
  | [], _ => []
  | controllerPair :: rest, s =>
    (setupPair controllerPair s).1 :: setupPairReturns setupPair rest (setupPair controllerPair s).2

/-- The call of `setupControllerPair` as its caller sees it when the value left
behind by a call that ended without `return` reads `garbage`. -/
def setupControllerPairReading {M : Type} (garbage : Bool) (env : Env M)
    (options : ControllerOptionsPair) (s : ManagerState M) : Option Bool × ManagerState M :=
  match setupControllerPair env options s with
  | (some value, s1) => (some value, s1)
  | (none, s1) => (some garbage, s1)

/-! ## Lemmas on the setup functions -/

theorem createUnmanagedInstance_log {M : Type} (env : Env M) (loader : LoaderKind)
    (lookupName : String) (s : ManagerState M) :
    (createUnmanagedInstance env loader lookupName s).2 =
      s.record (Event.createUnmanagedInstance loader lookupName
        (env.classAvailable loader lookupName)) := by
  unfold createUnmanagedInstance
  split <;> simp_all

theorem createUnmanagedInstance_isSome {M : Type} (env : Env M) (loader : LoaderKind)
    (lookupName : String) (s : ManagerState M) :
    (createUnmanagedInstance env loader lookupName s).1 =
      if env.classAvailable loader lookupName then
        some { loader := loader, lookupName := lookupName } else none := by
  unfold createUnmanagedInstance
  split <;> simp_all

theorem setupFailproofController_eq {M : Type} (env : Env M) (name : String)
    (s : ManagerState M) :
    setupFailproofController env name s =
      if env.classAvailable LoaderKind.failproofControllerLoader_ name then
        setFailproofController env
          (PluginInstance.setStateAndCommand
            { loader := LoaderKind.failproofControllerLoader_, lookupName := name })
          (s.record (Event.createUnmanagedInstance LoaderKind.failproofControllerLoader_ name true))
      else
        (false,
          s.record (Event.createUnmanagedInstance LoaderKind.failproofControllerLoader_ name false))
    := by
  unfold setupFailproofController createUnmanagedInstance
  by_cases h : env.classAvailable LoaderKind.failproofControllerLoader_ name = true
  · simp only [h, if_true]
    split <;> simp_all
  · simp [h]

theorem setupFailproofController_log {M : Type} (env : Env M) (name : String)
    (s : ManagerState M) :
    ∃ evs, (setupFailproofController env name s).2.log = s.log ++ evs ∧
      ∀ e ∈ evs, e.isPairSetup = false := by
  rw [setupFailproofController_eq]
  by_cases h : env.classAvailable LoaderKind.failproofControllerLoader_ name = true
  · simp only [h, if_true, setFailproofController, ManagerState.record]
    refine ⟨_, List.append_assoc _ [_] [_], ?_⟩
    intro e he
    simp at he
    rcases he with rfl | rfl <;> rfl
  · simp only [h, ManagerState.record]
    refine ⟨[_], rfl, ?_⟩
    intro e he
    simp at he
    subst he
    rfl

theorem loadController_eq {M : Type} (env : Env M) (options : ControllerOptionsPair)
    (s : ManagerState M) :
    loadController env options s =
      (if env.classAvailable (nominalLoader options) options.1.name_ then
        some { loader := nominalLoader options, lookupName := options.1.name_,
               nodeHandleSet := options.1.isRos_, stateAndCommandSet := true,
               parameterPath := some options.1.parameterPath_ }
       else none,
       s.record (Event.createUnmanagedInstance (nominalLoader options) options.1.name_
         (env.classAvailable (nominalLoader options) options.1.name_))) := by
  unfold loadController createUnmanagedInstance nominalLoader
  by_cases hr : options.1.isRos_ = true
  · by_cases ha : env.classAvailable LoaderKind.controllerRosLoader_ options.1.name_ = true
    · simp [hr, ha, PluginInstance.setNodeHandle, PluginInstance.setStateAndCommand,
        PluginInstance.setParameterPath]
    · simp [hr, ha]
  · by_cases ha : env.classAvailable LoaderKind.controllerLoader_ options.1.name_ = true
    · simp [hr, ha, PluginInstance.setStateAndCommand, PluginInstance.setParameterPath]
    · simp [hr, ha]

theorem loadEmergencyController_eq {M : Type} (env : Env M) (options : ControllerOptionsPair)
    (s : ManagerState M) :
    loadEmergencyController env options s =
      if options.2.name_ = "" then (none, s)
      else
        (if env.classAvailable (emergencyLoader options) options.2.name_ then
          some { loader := emergencyLoader options, lookupName := options.2.name_,
                 nodeHandleSet := options.2.isRos_, stateAndCommandSet := true,
                 parameterPath := some options.2.parameterPath_ }
         else none,
         s.record (Event.createUnmanagedInstance (emergencyLoader options) options.2.name_
           (env.classAvailable (emergencyLoader options) options.2.name_))) := by
  unfold loadEmergencyController createUnmanagedInstance emergencyLoader
  by_cases hn : options.2.name_ = ""
  · simp [hn]
  · by_cases hr : options.2.isRos_ = true
    · by_cases ha : env.classAvailable LoaderKind.emergencyControllerRosLoader_
          options.2.name_ = true
      · simp [hn, hr, ha, PluginInstance.setNodeHandle, PluginInstance.setStateAndCommand,
          PluginInstance.setParameterPath]
      · simp [hn, hr, ha]
    · by_cases ha : env.classAvailable LoaderKind.emergencyControllerLoader_
          options.2.name_ = true
      · simp [hn, hr, ha, PluginInstance.setStateAndCommand, PluginInstance.setParameterPath]
      · simp [hn, hr, ha]

theorem setupControllerPair_eq {M : Type} (env : Env M) (options : ControllerOptionsPair)
    (s : ManagerState M) :
    setupControllerPair env options s =
      match (loadController env options s).1 with
      | none => (some false, (loadController env options s).2)
      | some controller =>
        ((if (addControllerPair env controller
              (loadEmergencyController env options (loadController env options s).2).1
              (loadEmergencyController env options (loadController env options s).2).2).1
          then none else some false),
         (addControllerPair env controller
            (loadEmergencyController env options (loadController env options s).2).1
            (loadEmergencyController env options (loadController env options s).2).2).2) := by
  unfold setupControllerPair
  rcases hl : loadController env options s with ⟨c, s1⟩
  cases c with
  | none => rfl
  | some controller =>
    simp only
    rcases he : loadEmergencyController env options s1 with ⟨e, s2⟩
    simp only
    rcases ha : addControllerPair env controller e s2 with ⟨b, s3⟩
    cases b <;> simp

theorem andSuccess_eq_some_true (r b : Option Bool) :
    andSuccess r b = some true ↔ r = some true ∧ b = some true := by
  cases r with
  | none => simp [andSuccess]
  | some r =>
    cases b with
    | none => simp [andSuccess]
    | some b => simp [andSuccess]

theorem setupControllerPairs_eq_some_true {M : Type} (env : Env M)
    (pairs : List ControllerOptionsPair) (success : Option Bool) (s : ManagerState M) :
    (setupControllerPairs env pairs success s).1 = some true ↔
      success = some true ∧ ∀ r ∈ setupControllerPairReturns env pairs s, r = some true := by
  induction pairs generalizing success s with
  | nil => simp [setupControllerPairs, setupControllerPairReturns]
  | cons p rest ih =>
    simp only [setupControllerPairs, setupControllerPairReturns, List.mem_cons, forall_eq_or_imp]
    rw [ih, andSuccess_eq_some_true]
    tauto

theorem setupControllerPairs_state {M : Type} (env : Env M)
    (pairs : List ControllerOptionsPair) (success : Option Bool) (s : ManagerState M) :
    (setupControllerPairs env pairs success s).2 =
      pairs.foldl (fun st controllerPair => (setupControllerPair env controllerPair st).2) s := by
  induction pairs generalizing success s with
  | nil => rfl
  | cons p rest ih => simp only [setupControllerPairs, List.foldl_cons]; rw [ih]

theorem nominalLookups_append (xs ys : List Event) :
    nominalLookups (xs ++ ys) = nominalLookups xs ++ nominalLookups ys := by
  induction xs with
  | nil => rfl
  | cons e rest ih =>
    cases e with
    | createUnmanagedInstance loader n b =>
      cases loader <;> simp [nominalLookups, ih]
    | getParam k f => simp [nominalLookups, ih]
    | addControllerPair c e a => simp [nominalLookups, ih]
    | setFailproofController c a => simp [nominalLookups, ih]

theorem nominalLookups_nominal (options : ControllerOptionsPair) (b : Bool) :
    nominalLookups [Event.createUnmanagedInstance (nominalLoader options) options.1.name_ b]
      = [(nominalLoader options, options.1.name_)] := by
  unfold nominalLoader
  cases options.1.isRos_ <;> simp [nominalLookups]

theorem nominalLookups_emergency (options : ControllerOptionsPair) (b : Bool) :
    nominalLookups [Event.createUnmanagedInstance (emergencyLoader options) options.2.name_ b]
      = [] := by
  unfold emergencyLoader
  cases options.2.isRos_ <;> simp [nominalLookups]

theorem setupControllerPair_log {M : Type} (env : Env M) (options : ControllerOptionsPair)
    (s : ManagerState M) :
    ∃ evs, (setupControllerPair env options s).2.log = s.log ++ evs ∧
      nominalLookups evs = [(nominalLoader options, options.1.name_)] := by
  rw [setupControllerPair_eq, loadController_eq, loadEmergencyController_eq]
  by_cases hn : env.classAvailable (nominalLoader options) options.1.name_ = true
  · by_cases he : options.2.name_ = ""
    · simp only [hn, he, if_true, addControllerPair, ManagerState.record]
      refine ⟨_, List.append_assoc _ [_] [_], ?_⟩
      rw [nominalLookups_append, nominalLookups_nominal]
      simp [nominalLookups]
    · simp only [hn, he, if_true, if_false, addControllerPair, ManagerState.record]
      refine ⟨_, by rw [List.append_assoc, List.append_assoc], ?_⟩
      rw [nominalLookups_append, nominalLookups_append, nominalLookups_nominal,
        nominalLookups_emergency]
      simp [nominalLookups]
  · simp only [hn, ManagerState.record]
    refine ⟨_, rfl, ?_⟩
    simp only [Bool.not_eq_true] at hn
    rw [← hn]
    exact nominalLookups_nominal options _

theorem foldl_setupControllerPair_log {M : Type} (env : Env M)
    (pairs : List ControllerOptionsPair) (s : ManagerState M) :
    ∃ evs,
      (pairs.foldl (fun st controllerPair => (setupControllerPair env controllerPair st).2) s).log
        = s.log ++ evs ∧
      nominalLookups evs = pairs.map (fun options => (nominalLoader options, options.1.name_)) := by
  induction pairs generalizing s with
  | nil => exact ⟨[], by simp, rfl⟩
  | cons p rest ih =>
    obtain ⟨evs1, h1, hl1⟩ := setupControllerPair_log env p s
    obtain ⟨evs2, h2, hl2⟩ := ih (setupControllerPair env p s).2
    refine ⟨evs1 ++ evs2, ?_, ?_⟩
    · simp only [List.foldl_cons]
      rw [h2, h1, List.append_assoc]
    · rw [nominalLookups_append, hl1, hl2]
      rfl

theorem setupControllerPairReturns_length {M : Type} (env : Env M)
    (pairs : List ControllerOptionsPair) (s : ManagerState M) :
    (setupControllerPairReturns env pairs s).length = pairs.length := by
  induction pairs generalizing s with
  | nil => rfl
  | cons p rest ih => simp [setupControllerPairReturns, ih]

theorem getParamString_of_not_string {M : Type} (env : Env M) (key : String)
    (s : ManagerState M) (hkey : ∀ value, env.param key ≠ some (XmlRpcValue.asString value)) :
    getParamString env key s = (none, s.record (Event.getParam key false)) := by
  unfold getParamString
  split
  · next value hv => exact absurd hv (hkey value)
  · rfl

/-! ## Lemmas on the parameter parsing -/

theorem structMember_isSome (value : XmlRpcValue) (name : String) :
    (structMember value name).isSome =
      (value.hasMember name && (value.member name).getType == XmlRpcType.TypeStruct) := by
  cases value with
  | asStruct members =>
    simp only [structMember, XmlRpcValue.hasMember, XmlRpcValue.member]
    cases hl : lookupMember members name with
    | none => simp
    | some inner => cases inner <;> simp [XmlRpcValue.getType]
  | _ => simp [structMember, XmlRpcValue.hasMember]

theorem structMember_eq_some {value : XmlRpcValue} {name : String} {inner : XmlRpcValue}
    (h : structMember value name = some inner) :
    value.getType = XmlRpcType.TypeStruct ∧ value.member name = inner := by
  cases value with
  | asStruct members =>
    simp only [structMember] at h
    simp only [XmlRpcValue.getType, XmlRpcValue.member, true_and]
    cases hl : lookupMember members name with
    | none => simp [hl] at h
    | some found => cases found <;> simp_all
  | _ => simp [structMember] at h

theorem stringMember_isSome (value : XmlRpcValue) (name : String) :
    (stringMember value name).isSome =
      (value.hasMember name && (value.member name).getType == XmlRpcType.TypeString) := by
  cases value with
  | asStruct members =>
    simp only [stringMember, XmlRpcValue.hasMember, XmlRpcValue.member]
    cases hl : lookupMember members name with
    | none => simp
    | some inner => cases inner <;> simp [XmlRpcValue.getType]
  | _ => simp [stringMember, XmlRpcValue.hasMember]

theorem stringMember_eq_some {value : XmlRpcValue} {name : String} {text : String}
    (h : stringMember value name = some text) : (value.member name).toStdString = text := by
  cases value with
  | asStruct members =>
    simp only [stringMember] at h
    simp only [XmlRpcValue.member]
    cases hl : lookupMember members name with
    | none => simp [hl] at h
    | some found => cases found <;> simp_all [XmlRpcValue.toStdString]
  | _ => simp [stringMember] at h

theorem boolMember_isSome (value : XmlRpcValue) (name : String) :
    (boolMember value name).isSome =
      (value.hasMember name && (value.member name).getType == XmlRpcType.TypeBoolean) := by
  cases value with
  | asStruct members =>
    simp only [boolMember, XmlRpcValue.hasMember, XmlRpcValue.member]
    cases hl : lookupMember members name with
    | none => simp
    | some inner => cases inner <;> simp [XmlRpcValue.getType]
  | _ => simp [boolMember, XmlRpcValue.hasMember]

theorem boolMember_eq_some {value : XmlRpcValue} {name : String} {flag : Bool}
    (h : boolMember value name = some flag) : (value.member name).toBool = flag := by
  cases value with
  | asStruct members =>
    simp only [boolMember] at h
    simp only [XmlRpcValue.member]
    cases hl : lookupMember members name with
    | none => simp [hl] at h
    | some found => cases found <;> simp_all [XmlRpcValue.toBool]
  | _ => simp [boolMember] at h

theorem hasDataMembers_eq (controller : XmlRpcValue) :
    hasDataMembers controller = wellFormedController controller := by
  simp only [hasDataMembers, wellFormedController, stringMember_isSome, boolMember_isSome,
    Bool.and_assoc]

theorem structMember_none {value : XmlRpcValue} {name : String}
    (h : structMember value name = none) :
    (value.hasMember name && (value.member name).getType == XmlRpcType.TypeStruct) = false := by
  rw [← structMember_isSome, h]
  rfl

theorem structMember_some {value : XmlRpcValue} {name : String} {inner : XmlRpcValue}
    (h : structMember value name = some inner) :
    value.getType = XmlRpcType.TypeStruct ∧ value.hasMember name = true ∧
      (value.member name).getType = XmlRpcType.TypeStruct ∧ value.member name = inner := by
  have h1 := structMember_isSome value name
  rw [h] at h1
  simp at h1
  exact ⟨(structMember_eq_some h).1, h1.1, h1.2, (structMember_eq_some h).2⟩

/-- The body of the loop, read through the well-formedness of the entry. -/
theorem parseControllerPair_eq {M : Type} (env : Env M) (entry : XmlRpcValue)
    (pairs : List ControllerOptionsPair) (pair : ControllerOptionsPair) :
    parseControllerPair env entry pairs pair =
      match structMember entry "controller_pair" with
      | none => (pairs, pair)
      | some controller_pair =>
        match structMember controller_pair "controller" with
        | none => (pairs, pair)
        | some controller =>
          if wellFormedController controller then
            match structMember controller_pair "emergency_controller" with
            | some emergency =>
              if wellFormedController emergency then
                (pairs ++ [(assignDataMembers env pair.1 controller,
                            assignDataMembers env pair.2 emergency)],
                 (assignDataMembers env pair.1 controller,
                  assignDataMembers env pair.2 emergency))
              else
                (pairs ++ [(assignDataMembers env pair.1 controller, ({} : ControllerOptions))],
                 (assignDataMembers env pair.1 controller, ({} : ControllerOptions)))
            | none =>
              (pairs ++ [(assignDataMembers env pair.1 controller, ({} : ControllerOptions))],
               (assignDataMembers env pair.1 controller, ({} : ControllerOptions)))
          else (pairs, pair) := by
  unfold parseControllerPair
  cases h1 : structMember entry "controller_pair" with
  | none =>
    have h := structMember_none h1
    by_cases hm : entry.hasMember "controller_pair" = true
    · simp [hm] at h
      simp [hm, h]
    · simp [hm]
  | some controller_pair =>
    obtain ⟨ht, hm, hmt, rfl⟩ := structMember_some h1
    simp only [ht, hm, hmt, bne_self_eq_false, Bool.not_true, Bool.or_self, Bool.false_eq_true,
      if_false]
    cases h2 : structMember (entry.member "controller_pair") "controller" with
    | none =>
      have h := structMember_none h2
      simp only [h, Bool.false_eq_true, if_false]
    | some controller =>
      obtain ⟨_, hm2, hmt2, rfl⟩ := structMember_some h2
      simp only [hm2, hmt2, beq_self_eq_true, Bool.and_self, if_true, hasDataMembers_eq]
      by_cases hwf : wellFormedController
          ((entry.member "controller_pair").member "controller") = true
      · simp only [hwf, if_true]
        cases h3 : structMember (entry.member "controller_pair") "emergency_controller" with
        | none =>
          have h := structMember_none h3
          simp only [h, Bool.false_eq_true, if_false]
        | some emergency =>
          obtain ⟨_, hm3, hmt3, rfl⟩ := structMember_some h3
          simp only [hm3, hmt3, beq_self_eq_true, Bool.and_self, if_true]
      · simp only [hwf, Bool.false_eq_true, if_false]

theorem assignDataMembers_of_default {M : Type} (env : Env M) (options : ControllerOptions)
    (controller : XmlRpcValue) (hplugin : options.pluginName_ = "")
    (hshared : options.sharedModuleNames_ = []) :
    assignDataMembers env options controller
      = assignDataMembers env ({} : ControllerOptions) controller := by
  simp [assignDataMembers, hplugin, hshared]

/-- One pass of the loop pushes what it would push from the default-constructed
variable, and keeps the never-assigned fields at their defaults. -/
theorem parseControllerPair_of_default {M : Type} (env : Env M) (entry : XmlRpcValue)
    (pairs : List ControllerOptionsPair) (pair : ControllerOptionsPair)
    (hpair : unassignedFieldsDefault pair) :
    (parseControllerPair env entry pairs pair).1 =
      pairs ++ (parseControllerPair env entry []
        (({} : ControllerOptions), ({} : ControllerOptions))).1 ∧
    unassignedFieldsDefault (parseControllerPair env entry pairs pair).2 := by
  obtain ⟨h1, h2, h3, h4⟩ := hpair
  have ha := fun c => assignDataMembers_of_default env pair.1 c h1 h2
  have hb := fun c => assignDataMembers_of_default env pair.2 c h3 h4
  simp only [parseControllerPair_eq]
  cases h5 : structMember entry "controller_pair" with
  | none => exact ⟨by simp, h1, h2, h3, h4⟩
  | some controller_pair =>
    simp only []
    cases h6 : structMember controller_pair "controller" with
    | none => exact ⟨by simp, h1, h2, h3, h4⟩
    | some controller =>
      simp only []
      by_cases hwf : wellFormedController controller = true
      · simp only [hwf, if_true]
        cases h7 : structMember controller_pair "emergency_controller" with
        | none =>
          simp only [ha, List.nil_append, true_and]
          simp [unassignedFieldsDefault, assignDataMembers]
        | some emergency =>
          simp only []
          by_cases hwe : wellFormedController emergency = true
          · simp only [hwe, if_true, ha, hb, List.nil_append, true_and]
            simp [unassignedFieldsDefault, assignDataMembers]
          · simp only [hwe, Bool.false_eq_true, if_false, ha, List.nil_append, true_and]
            simp [unassignedFieldsDefault, assignDataMembers]
      · simp only [hwf, Bool.false_eq_true, if_false]
        exact ⟨by simp, h1, h2, h3, h4⟩

theorem unassignedFieldsDefault_default :
    unassignedFieldsDefault (({} : ControllerOptions), ({} : ControllerOptions)) :=
  ⟨rfl, rfl, rfl, rfl⟩

theorem parseControllerPairList_of_default {M : Type} (env : Env M) (entries : List XmlRpcValue)
    (pairs : List ControllerOptionsPair) (pair : ControllerOptionsPair)
    (hpair : unassignedFieldsDefault pair) :
    (parseControllerPairList env entries pairs pair).1 =
      pairs ++ (parseControllerPairList env entries []
        (({} : ControllerOptions), ({} : ControllerOptions))).1 ∧
    unassignedFieldsDefault (parseControllerPairList env entries pairs pair).2 := by
  induction entries generalizing pairs pair with
  | nil => exact ⟨by simp [parseControllerPairList], hpair⟩
  | cons entry rest ih =>
    simp only [parseControllerPairList]
    obtain ⟨h1, h2⟩ := parseControllerPair_of_default env entry pairs pair hpair
    obtain ⟨h3, h4⟩ := parseControllerPair_of_default env entry [] _ unassignedFieldsDefault_default
    obtain ⟨h5, h6⟩ := ih (parseControllerPair env entry pairs pair).1 _ h2
    obtain ⟨h7, _⟩ := ih (parseControllerPair env entry []
      (({} : ControllerOptions), ({} : ControllerOptions))).1 _ h4
    refine ⟨?_, h6⟩
    rw [h5, h7, h1, List.append_assoc]

theorem parseControllerPairList_append {M : Type} (env : Env M) (xs ys : List XmlRpcValue)
    (pairs : List ControllerOptionsPair) (pair : ControllerOptionsPair) :
    parseControllerPairList env (xs ++ ys) pairs pair =
      parseControllerPairList env ys (parseControllerPairList env xs pairs pair).1
        (parseControllerPairList env xs pairs pair).2 := by
  induction xs generalizing pairs pair with
  | nil => rfl
  | cons x rest ih =>
    show parseControllerPairList env (x :: (rest ++ ys)) pairs pair = _
    simp only [parseControllerPairList]
    exact ih _ _

/-- The parsed list of an array is the concatenation of what its parts give. -/
theorem parseControllerList_append {M : Type} (env : Env M) (xs ys : List XmlRpcValue) :
    parseControllerList env (some (XmlRpcValue.asArray (xs ++ ys))) =
      parseControllerList env (some (XmlRpcValue.asArray xs)) ++
        parseControllerList env (some (XmlRpcValue.asArray ys)) := by
  simp only [parseControllerList]
  rw [parseControllerPairList_append]
  have h := parseControllerPairList_of_default env xs []
    (({} : ControllerOptions), ({} : ControllerOptions)) unassignedFieldsDefault_default
  exact (parseControllerPairList_of_default env ys _ _ h.2).1

theorem parseControllerList_cons {M : Type} (env : Env M) (pre post : List XmlRpcValue)
    (entry : XmlRpcValue) :
    parseControllerList env (some (XmlRpcValue.asArray (pre ++ entry :: post))) =
      parseControllerList env (some (XmlRpcValue.asArray pre)) ++
        parseControllerList env (some (XmlRpcValue.asArray [entry])) ++
        parseControllerList env (some (XmlRpcValue.asArray post)) := by
  have h : pre ++ entry :: post = pre ++ ([entry] ++ post) := rfl
  rw [h, parseControllerList_append, parseControllerList_append, List.append_assoc]

theorem parseControllerList_singleton {M : Type} (env : Env M) (entry : XmlRpcValue) :
    parseControllerList env (some (XmlRpcValue.asArray [entry])) =
      (parseControllerPair env entry []
        (({} : ControllerOptions), ({} : ControllerOptions))).1 := rfl

theorem parseControllerPair_length {M : Type} (env : Env M) (entry : XmlRpcValue) :
    (parseControllerPair env entry []
      (({} : ControllerOptions), ({} : ControllerOptions))).1.length =
      if wellFormedEntry entry = true then 1 else 0 := by
  rw [parseControllerPair_eq]
  unfold wellFormedEntry
  rcases Option.eq_none_or_eq_some (structMember entry "controller_pair") with
    h1 | ⟨controller_pair, h1⟩
  · simp [h1]
  · simp only [h1]
    rcases Option.eq_none_or_eq_some (structMember controller_pair "controller") with
      h2 | ⟨controller, h2⟩
    · simp [h2]
    · simp only [h2]
      by_cases hwf : wellFormedController controller = true
      · simp only [hwf, if_true]
        rcases Option.eq_none_or_eq_some
            (structMember controller_pair "emergency_controller") with h3 | ⟨emergency, h3⟩
        · simp [h3]
        · simp only [h3]
          by_cases hwe : wellFormedController emergency = true
          · simp [hwe]
          · simp [hwe]
      · simp [hwf]

/-! ## Claims -/

/-- C1: if `setupFailproofController` fails inside `setupControllers`, the
process exits with the non-zero status `-1`, in the state in which
`setupFailproofController` left the manager, and nothing of what was logged
since the call sets up a controller pair; and whenever `setupControllers`
returns, `setupFailproofController` had returned true. -/
theorem setupControllers_failproof_failure_exits {M : Type} (env : Env M)
    (failproofControllerName : String) (controllerNameMap : List ControllerOptionsPair)
    (s : ManagerState M) :
    ((setupFailproofController env failproofControllerName s).1 = false →
      (∃ code, code ≠ 0 ∧
        (setupControllers env failproofControllerName controllerNameMap s).1
          = Outcome.exited code) ∧
      (setupControllers env failproofControllerName controllerNameMap s).2
        = (setupFailproofController env failproofControllerName s).2 ∧
      ∃ evs, (setupControllers env failproofControllerName controllerNameMap s).2.log
          = s.log ++ evs ∧ ∀ e ∈ evs, e.isPairSetup = false) ∧
    (∀ value, (setupControllers env failproofControllerName controllerNameMap s).1
        = Outcome.returned value →
      (setupFailproofController env failproofControllerName s).1 = true) := by
  have hlog := setupFailproofController_log env failproofControllerName s
  unfold setupControllers
  rcases hfp : setupFailproofController env failproofControllerName s with ⟨b, s1⟩
  rw [hfp] at hlog
  cases b
  · simp only [true_and, forall_true_left]
    exact ⟨⟨⟨-1, by decide, rfl⟩, hlog⟩, by intro v hv; cases hv⟩
  · simp

/-- Witness of C1: the failproof class `NOPE` is unknown to the loader. -/
theorem setupControllers_failproof_failure_exits_witness :
    (setupFailproofController (demoEnv noParams) "NOPE" initialState).1 = false ∧
    (setupControllers (demoEnv noParams) "NOPE"
      [(plainOptions "WALK", plainOptions "STAND")] initialState).2.log
      = [Event.createUnmanagedInstance LoaderKind.failproofControllerLoader_ "NOPE" false] :=
  ⟨by decide,
    by
      have h := ((setupControllers_failproof_failure_exits (demoEnv noParams) "NOPE"
        [(plainOptions "WALK", plainOptions "STAND")] initialState).1 (by decide)).2.1
      rw [h]
      decide⟩

theorem setupControllerPairsWith_eq_some_true {M : Type}
    (setupPair : ControllerOptionsPair → ManagerState M → Option Bool × ManagerState M)
    (pairs : List ControllerOptionsPair) (success : Option Bool) (s : ManagerState M) :
    (setupControllerPairsWith setupPair pairs success s).1 = some true ↔
      success = some true ∧ ∀ r ∈ setupPairReturns setupPair pairs s, r = some true := by
  induction pairs generalizing success s with
  | nil => simp [setupControllerPairsWith, setupPairReturns]
  | cons p rest ih =>
    simp only [setupControllerPairsWith, setupPairReturns, List.mem_cons, forall_eq_or_imp]
    rw [ih, andSuccess_eq_some_true]
    tauto

theorem setupControllerPairsWith_eq_some_false {M : Type}
    (setupPair : ControllerOptionsPair → ManagerState M → Option Bool × ManagerState M)
    (pairs : List ControllerOptionsPair) (success : Option Bool) (s : ManagerState M) :
    (setupControllerPairsWith setupPair pairs success s).1 = some false ↔
      (∀ r ∈ setupPairReturns setupPair pairs s, r ≠ none) ∧
      (success = some false ∨
        (success = some true ∧ ∃ r ∈ setupPairReturns setupPair pairs s, r = some false)) := by
  induction pairs generalizing success s with
  | nil => simp [setupControllerPairsWith, setupPairReturns]
  | cons p rest ih =>
    simp only [setupControllerPairsWith, setupPairReturns, List.mem_cons, forall_eq_or_imp,
      exists_eq_or_imp]
    rw [ih]
    rcases (setupPair p s).1 with _ | _ | _ <;> rcases success with _ | _ | _ <;>
      simp [andSuccess]

theorem setupControllerPairsWith_setupControllerPair {M : Type} (env : Env M)
    (pairs : List ControllerOptionsPair) (success : Option Bool) (s : ManagerState M) :
    setupControllerPairsWith (setupControllerPair env) pairs success s =
      setupControllerPairs env pairs success s := by
  induction pairs generalizing success s with
  | nil => rfl
  | cons p rest ih => simp only [setupControllerPairsWith, setupControllerPairs, ih]

/-- C2: when the failproof controller is set up successfully,
`setupControllers` returns true if and only if every call of
`setupControllerPair` made for the pairs of the list returned true, whatever
the calls are read to return (the value of a call that ends without `return`
included); it returns false if and only if every call returned a value and one
of them false; the loop run on `setupControllerPair` is `setupControllers`; and
for the empty list `setupControllers` returns true. -/
theorem setupControllers_true_iff_all_pairs_true {M : Type} (env : Env M)
    (setupPair : ControllerOptionsPair → ManagerState M → Option Bool × ManagerState M)
    (failproofControllerName : String) (controllerNameMap : List ControllerOptionsPair)
    (s : ManagerState M)
    (hfailproof : (setupFailproofController env failproofControllerName s).1 = true) :
    ((setupControllersWith env setupPair failproofControllerName controllerNameMap s).1
        = Outcome.returned (some true) ↔
      ∀ r ∈ setupPairReturns setupPair controllerNameMap
          (setupFailproofController env failproofControllerName s).2, r = some true) ∧
    ((setupControllersWith env setupPair failproofControllerName controllerNameMap s).1
        = Outcome.returned (some false) ↔
      (∀ r ∈ setupPairReturns setupPair controllerNameMap
          (setupFailproofController env failproofControllerName s).2, r ≠ none) ∧
      ∃ r ∈ setupPairReturns setupPair controllerNameMap
          (setupFailproofController env failproofControllerName s).2, r = some false) ∧
    (∀ (pairs : List ControllerOptionsPair) (s0 : ManagerState M),
      setupControllersWith env (setupControllerPair env) failproofControllerName pairs s0 =
        setupControllers env failproofControllerName pairs s0) ∧
    (setupControllers env failproofControllerName [] s).1 = Outcome.returned (some true) := by
  refine ⟨?_, ?_, ?_, ?_⟩
  · unfold setupControllersWith
    rcases hfp : setupFailproofController env failproofControllerName s with ⟨b, s1⟩
    rw [hfp] at hfailproof
    simp only at hfailproof
    subst hfailproof
    simp only [Outcome.returned.injEq]
    rw [setupControllerPairsWith_eq_some_true]
    simp
  · unfold setupControllersWith
    rcases hfp : setupFailproofController env failproofControllerName s with ⟨b, s1⟩
    rw [hfp] at hfailproof
    simp only at hfailproof
    subst hfailproof
    simp only [Outcome.returned.injEq]
    rw [setupControllerPairsWith_eq_some_false]
    simp
  · intro pairs s0
    unfold setupControllersWith setupControllers
    simp only [setupControllerPairsWith_setupControllerPair]
  · unfold setupControllers
    rcases hfp : setupFailproofController env failproofControllerName s with ⟨b, s1⟩
    rw [hfp] at hfailproof
    simp only at hfailproof
    subst hfailproof
    rfl

/-- Witness of C2: the failproof controller `FP` is set up; the pairs
(`WALK`, `STAND`) and (`TROT`, none) are added, and with the value of the calls
that end without `return` read as true, `setupControllers` returns true. -/
theorem setupControllers_true_iff_all_pairs_true_witness :
    (setupFailproofController (demoEnv noParams) "FP" initialState).1 = true ∧
    setupPairReturns (setupControllerPairReading true (demoEnv noParams))
      [(plainOptions "WALK", plainOptions "STAND"),
       ({ name_ := "TROT", isRos_ := true }, ({} : ControllerOptions))]
      (setupFailproofController (demoEnv noParams) "FP" initialState).2
      = [some true, some true] ∧
    (setupControllersWith (demoEnv noParams) (setupControllerPairReading true (demoEnv noParams))
      "FP" [(plainOptions "WALK", plainOptions "STAND"),
            ({ name_ := "TROT", isRos_ := true }, ({} : ControllerOptions))] initialState).1
      = Outcome.returned (some true) :=
  ⟨by decide, by decide,
    (setupControllers_true_iff_all_pairs_true (demoEnv noParams)
      (setupControllerPairReading true (demoEnv noParams)) "FP"
      [(plainOptions "WALK", plainOptions "STAND"),
       ({ name_ := "TROT", isRos_ := true }, ({} : ControllerOptions))] initialState
      (by decide)).1.mpr (by decide)⟩

/-- C3, the code at a pair that is added: the nominal plugin `WALK` and the
emergency plugin `STAND` load, `addControllerPair` accepts the pair, and
`setupControllerPair` ends without a returned value (neither true nor false). -/
theorem setupControllerPair_added_pair_returns_nothing :
    setupControllerPair (demoEnv noParams) (plainOptions "WALK", plainOptions "STAND")
        initialState =
      (none,
       { manager := ["WALK"],
         log := [Event.createUnmanagedInstance LoaderKind.controllerLoader_ "WALK" true,
                 Event.createUnmanagedInstance LoaderKind.emergencyControllerLoader_ "STAND" true,
                 Event.addControllerPair
                   { loader := LoaderKind.controllerLoader_, lookupName := "WALK",
                     stateAndCommandSet := true, parameterPath := some "/opt/params/WALK" }
                   (some { loader := LoaderKind.emergencyControllerLoader_, lookupName := "STAND",
                           stateAndCommandSet := true,
                           parameterPath := some "/opt/params/STAND" })
                   true] }) := by
  decide

/-- C4 fails as stated: the nominal class `NOPE` cannot be resolved, and
`setupControllerPair` returns false with the base manager as it was; no call
of `addControllerPair` is made, so no nominal-only pair is added. -/
theorem setupControllerPair_unresolved_nominal_adds_no_pair :
    (demoEnv noParams).classAvailable
        (nominalLoader (plainOptions "NOPE", plainOptions "STAND")) "NOPE" = false ∧
    setupControllerPair (demoEnv noParams) (plainOptions "NOPE", plainOptions "STAND")
        initialState =
      (some false,
       { manager := [],
         log := [Event.createUnmanagedInstance LoaderKind.controllerLoader_ "NOPE" false] }) ∧
    ¬ ∃ controller accepted, Event.addControllerPair controller none accepted ∈
      (setupControllerPair (demoEnv noParams) (plainOptions "NOPE", plainOptions "STAND")
        initialState).2.log := by
  refine ⟨by decide, by decide, ?_⟩
  rintro ⟨controller, accepted, h⟩
  have hlog : (setupControllerPair (demoEnv noParams)
      (plainOptions "NOPE", plainOptions "STAND") initialState).2.log =
      [Event.createUnmanagedInstance LoaderKind.controllerLoader_ "NOPE" false] := by decide
  rw [hlog] at h
  simp at h

/-- C4 as amended: when the loader cannot resolve the class of the nominal
controller, `setupControllerPair` returns false after that one failed
instantiation: the base manager is unchanged, no emergency controller is
instantiated and `addControllerPair` is not called. -/
theorem setupControllerPair_unresolved_nominal_skips_pair {M : Type} (env : Env M)
    (options : ControllerOptionsPair) (s : ManagerState M)
    (hnominal : env.classAvailable (nominalLoader options) options.1.name_ = false) :
    setupControllerPair env options s =
      (some false,
       { manager := s.manager,
         log := s.log ++
           [Event.createUnmanagedInstance (nominalLoader options) options.1.name_ false] }) := by
  rw [setupControllerPair_eq, loadController_eq]
  simp [hnominal, ManagerState.record]

/-- Witness of the amended C4 at the unknown nominal class `NOPE`. -/
theorem setupControllerPair_unresolved_nominal_skips_pair_witness :
    (demoEnv noParams).classAvailable
        (nominalLoader (plainOptions "NOPE", plainOptions "STAND")) "NOPE" = false ∧
    (setupControllerPair (demoEnv noParams) (plainOptions "NOPE", plainOptions "STAND")
        initialState).1 = some false :=
  ⟨by decide,
    by rw [setupControllerPair_unresolved_nominal_skips_pair (demoEnv noParams)
      (plainOptions "NOPE", plainOptions "STAND") initialState (by decide)]⟩

/-- C5, the code at a pair whose emergency controller fails to load and at a
pair without emergency controller: the nominal plugin `WALK` loads; the
emergency class `NOPE` is asked for and unknown, and with an empty emergency
name no emergency class is asked for; in both runs `addControllerPair` gets the
nominal controller with a null emergency controller and accepts, and
`setupControllerPair` ends without a returned value: what its caller reads is
not fixed by the code and may be false. -/
theorem setupControllerPair_emergency_fallback_returns_nothing :
    setupControllerPair (demoEnv noParams) (plainOptions "WALK", plainOptions "NOPE")
        initialState =
      (none,
       { manager := ["WALK"],
         log := [Event.createUnmanagedInstance LoaderKind.controllerLoader_ "WALK" true,
                 Event.createUnmanagedInstance LoaderKind.emergencyControllerLoader_ "NOPE" false,
                 Event.addControllerPair
                   { loader := LoaderKind.controllerLoader_, lookupName := "WALK",
                     stateAndCommandSet := true, parameterPath := some "/opt/params/WALK" }
                   none true] }) ∧
    setupControllerPair (demoEnv noParams) (plainOptions "WALK", ({} : ControllerOptions))
        initialState =
      (none,
       { manager := ["WALK"],
         log := [Event.createUnmanagedInstance LoaderKind.controllerLoader_ "WALK" true,
                 Event.addControllerPair
                   { loader := LoaderKind.controllerLoader_, lookupName := "WALK",
                     stateAndCommandSet := true, parameterPath := some "/opt/params/WALK" }
                   none true] }) := by
  decide

/-- C6: once the failproof controller is set up, `setupControllers` runs
`setupControllerPair` on every pair of the list, one after the other in list
order and each from the state the one before left, whatever the calls return:
the nominal lookups logged since are those of the pairs, one per pair and in
the order of the list, and there is one returned value per pair. -/
theorem setupControllers_sets_up_every_pair_in_order {M : Type} (env : Env M)
    (failproofControllerName : String) (controllerNameMap : List ControllerOptionsPair)
    (s : ManagerState M)
    (hfailproof : (setupFailproofController env failproofControllerName s).1 = true) :
    (setupControllers env failproofControllerName controllerNameMap s).2 =
      controllerNameMap.foldl
        (fun st controllerPair => (setupControllerPair env controllerPair st).2)
        (setupFailproofController env failproofControllerName s).2 ∧
    (∃ evs,
      (setupControllers env failproofControllerName controllerNameMap s).2.log =
        (setupFailproofController env failproofControllerName s).2.log ++ evs ∧
      nominalLookups evs =
        controllerNameMap.map (fun options => (nominalLoader options, options.1.name_))) ∧
    (setupControllerPairReturns env controllerNameMap
      (setupFailproofController env failproofControllerName s).2).length
        = controllerNameMap.length := by
  have hstate : (setupControllers env failproofControllerName controllerNameMap s).2 =
      controllerNameMap.foldl
        (fun st controllerPair => (setupControllerPair env controllerPair st).2)
        (setupFailproofController env failproofControllerName s).2 := by
    unfold setupControllers
    rcases hfp : setupFailproofController env failproofControllerName s with ⟨b, s1⟩
    rw [hfp] at hfailproof
    simp only at hfailproof
    subst hfailproof
    simp only
    exact setupControllerPairs_state env controllerNameMap (some true) s1
  refine ⟨hstate, ?_, ?_⟩
  · rw [hstate]
    exact foldl_setupControllerPair_log env controllerNameMap _
  · exact setupControllerPairReturns_length env controllerNameMap _

/-- Witness of C6: the first pair fails (unknown nominal class `NOPE`), the
second and third are still set up, in that order. -/
theorem setupControllers_sets_up_every_pair_in_order_witness :
    (setupFailproofController (demoEnv noParams) "FP" initialState).1 = true ∧
    nominalLookups (setupControllers (demoEnv noParams) "FP"
        [(plainOptions "NOPE", plainOptions "STAND"), (plainOptions "WALK", plainOptions ""),
         (plainOptions "WALK", plainOptions "STAND")] initialState).2.log =
      [(LoaderKind.controllerLoader_, "NOPE"), (LoaderKind.controllerLoader_, "WALK"),
       (LoaderKind.controllerLoader_, "WALK")] :=
  ⟨by decide,
    by
      rw [(setupControllers_sets_up_every_pair_in_order (demoEnv noParams) "FP"
        [(plainOptions "NOPE", plainOptions "STAND"), (plainOptions "WALK", plainOptions ""),
         (plainOptions "WALK", plainOptions "STAND")] initialState (by decide)).1]
      decide⟩

/-- C7: `setupFailproofController` returns true if and only if the failproof
loader resolves the class and `setFailproofController` accepts the instance;
otherwise, so when the plugin fails to load or the manager rejects the
controller, it returns false. -/
theorem setupFailproofController_true_iff {M : Type} (env : Env M)
    (controllerPluginName : String) (s : ManagerState M) :
    ((setupFailproofController env controllerPluginName s).1 = true ↔
      env.classAvailable LoaderKind.failproofControllerLoader_ controllerPluginName = true ∧
      (env.setFailproofController s.manager
        { loader := LoaderKind.failproofControllerLoader_, lookupName := controllerPluginName,
          stateAndCommandSet := true }).1 = true) ∧
    ((setupFailproofController env controllerPluginName s).1 = false ↔
      env.classAvailable LoaderKind.failproofControllerLoader_ controllerPluginName = false ∨
      (env.setFailproofController s.manager
        { loader := LoaderKind.failproofControllerLoader_, lookupName := controllerPluginName,
          stateAndCommandSet := true }).1 = false) := by
  rw [setupFailproofController_eq]
  by_cases h : env.classAvailable LoaderKind.failproofControllerLoader_ controllerPluginName = true
  · simp [h, setFailproofController, ManagerState.record, PluginInstance.setStateAndCommand]
  · simp [h]

/-- C8: when `controller_manager/failproof_controller` cannot be read as a
string, `setupControllersFromParameterServer` exits with status `-1` after
that one failed read: `controller_manager/controller_pairs` is not read, no
loader is asked and the base manager is unchanged. -/
theorem setupControllersFromParameterServer_requires_failproof_name {M : Type} (env : Env M)
    (s : ManagerState M)
    (hname : ∀ value, env.param "controller_manager/failproof_controller"
      ≠ some (XmlRpcValue.asString value)) :
    setupControllersFromParameterServer env s =
      (Outcome.exited (-1),
       { manager := s.manager,
         log := s.log ++ [Event.getParam "controller_manager/failproof_controller" false] }) ∧
    (-1 : Int) ≠ 0 := by
  refine ⟨?_, by decide⟩
  unfold setupControllersFromParameterServer
  rw [getParamString_of_not_string env _ s hname]
  rfl

/-- Witness of C8: `failproof_controller` is set to an integer, and
`controller_pairs` holds a well-formed entry that is never read. -/
theorem setupControllersFromParameterServer_requires_failproof_name_witness :
    (demoEnv wrongTypedParams).param "controller_manager/failproof_controller"
      = some (XmlRpcValue.asInt 7) ∧
    setupControllersFromParameterServer (demoEnv wrongTypedParams) initialState =
      (Outcome.exited (-1),
       { manager := [],
         log := [Event.getParam "controller_manager/failproof_controller" false] }) :=
  ⟨rfl,
    (setupControllersFromParameterServer_requires_failproof_name (demoEnv wrongTypedParams)
      initialState (by intro value h; simp [demoEnv, wrongTypedParams] at h)).1⟩

/-- C9: with the failproof name readable and `controller_pairs` an array, the
list handed to `setupControllers` is what the entries before give, then the
contribution of the entry, then what the entries after give; the contribution
is one pair if the entry is a struct with a struct member `controller_pair`
that has a struct member `controller` with `name: string`, `is_ros: bool`,
`parameter_package: string` and `parameter_path: string`, and no pair
otherwise. -/
theorem setupControllersFromParameterServer_entry_contribution {M : Type} (env : Env M)
    (s : ManagerState M) (failproofControllerName : String) (before after : List XmlRpcValue)
    (entry : XmlRpcValue)
    (hname : env.param "controller_manager/failproof_controller"
      = some (XmlRpcValue.asString failproofControllerName))
    (hpairs : env.param "controller_manager/controller_pairs"
      = some (XmlRpcValue.asArray (before ++ entry :: after))) :
    ∃ contribution,
      setupControllersFromParameterServer env s =
        setupControllers env failproofControllerName
          (parseControllerList env (some (XmlRpcValue.asArray before)) ++ contribution ++
            parseControllerList env (some (XmlRpcValue.asArray after)))
          ((s.record (Event.getParam "controller_manager/failproof_controller" true)).record
            (Event.getParam "controller_manager/controller_pairs" true)) ∧
      contribution = parseControllerList env (some (XmlRpcValue.asArray [entry])) ∧
      contribution.length = if wellFormedEntry entry = true then 1 else 0 := by
  refine ⟨_, ?_, rfl, ?_⟩
  · unfold setupControllersFromParameterServer getParamString getParamXmlRpc
    simp only [hname, hpairs]
    rw [parseControllerList_cons]
  · rw [parseControllerList_singleton]
    exact parseControllerPair_length env entry

/-- Witness of C9 at the first entry of `demoParams`, which is an integer: it
contributes nothing and the two entries after it are parsed. -/
theorem setupControllersFromParameterServer_entry_contribution_witness :
    wellFormedEntry (XmlRpcValue.asInt 3) = false ∧
    ∃ contribution,
      setupControllersFromParameterServer (demoEnv demoParams) initialState =
        setupControllers (demoEnv demoParams) "FP"
          (parseControllerList (demoEnv demoParams) (some (XmlRpcValue.asArray [])) ++
            contribution ++
            parseControllerList (demoEnv demoParams) (some (XmlRpcValue.asArray
              [demoEntry [("controller", demoController "WALK" false),
                          ("emergency_controller", .asString "STAND")],
               demoEntry [("controller", demoController "TROT" true),
                          ("emergency_controller", demoController "STAND" false)]])))
          ((initialState.record
              (Event.getParam "controller_manager/failproof_controller" true)).record
            (Event.getParam "controller_manager/controller_pairs" true)) ∧
      contribution.length = 0 :=
  ⟨rfl,
    by
      obtain ⟨contribution, h1, _, h3⟩ :=
        setupControllersFromParameterServer_entry_contribution (demoEnv demoParams)
          initialState "FP" [] [demoEntry [("controller", demoController "WALK" false),
                          ("emergency_controller", .asString "STAND")],
               demoEntry [("controller", demoController "TROT" true),
                          ("emergency_controller", demoController "STAND" false)]]
          (XmlRpcValue.asInt 3) rfl rfl
      exact ⟨contribution, h1, h3⟩⟩

/-- C10: an entry whose `controller` is well formed and whose
`emergency_controller` is missing, is not a struct or lacks one of the four
typed data members, puts one pair on the parsed list: its nominal options hold
the name, the flag and the parameter path read from `controller` (all other
fields default), its emergency options are the default ones, with empty
name. -/
theorem setupControllersFromParameterServer_emergency_defaults {M : Type} (env : Env M)
    (before after : List XmlRpcValue) (entry controller_pair controller : XmlRpcValue)
    (name package path : String) (isRos : Bool)
    (hpair : structMember entry "controller_pair" = some controller_pair)
    (hcontroller : structMember controller_pair "controller" = some controller)
    (hname : stringMember controller "name" = some name)
    (hros : boolMember controller "is_ros" = some isRos)
    (hpackage : stringMember controller "parameter_package" = some package)
    (hpath : stringMember controller "parameter_path" = some path)
    (hemergency : wellFormedEmergency entry = false) :
    parseControllerList env (some (XmlRpcValue.asArray (before ++ entry :: after))) =
      parseControllerList env (some (XmlRpcValue.asArray before)) ++
        [(({ name_ := name, isRos_ := isRos,
             parameterPath_ := env.getPath package ++ "/" ++ path } : ControllerOptions),
          ({} : ControllerOptions))] ++
        parseControllerList env (some (XmlRpcValue.asArray after)) ∧
    ({} : ControllerOptions).name_ = "" := by
  refine ⟨?_, rfl⟩
  have hwf : wellFormedController controller = true := by
    simp [wellFormedController, hname, hros, hpackage, hpath]
  have hassign : assignDataMembers env ({} : ControllerOptions) controller =
      ({ name_ := name, isRos_ := isRos,
         parameterPath_ := env.getPath package ++ "/" ++ path } : ControllerOptions) := by
    simp [assignDataMembers, stringMember_eq_some hname, boolMember_eq_some hros,
      stringMember_eq_some hpackage, stringMember_eq_some hpath]
  rw [parseControllerList_cons, parseControllerList_singleton, parseControllerPair_eq]
  simp only [wellFormedEmergency, hpair] at hemergency
  simp only [hpair, hcontroller, hwf, if_true, hassign]
  cases h3 : structMember controller_pair "emergency_controller" with
  | none => rfl
  | some emergency =>
    rw [h3] at hemergency
    simp only [] at hemergency
    simp [hemergency]

/-- Witness of C10 at the second entry of `demoParams`, whose
`emergency_controller` is a string. -/
theorem setupControllersFromParameterServer_emergency_defaults_witness :
    wellFormedEmergency (demoEntry [("controller", demoController "WALK" false),
      ("emergency_controller", .asString "STAND")]) = false ∧
    parseControllerList (demoEnv demoParams) (some (XmlRpcValue.asArray
      ([XmlRpcValue.asInt 3] ++
        demoEntry [("controller", demoController "WALK" false),
          ("emergency_controller", .asString "STAND")] :: []))) =
      parseControllerList (demoEnv demoParams) (some (XmlRpcValue.asArray [XmlRpcValue.asInt 3]))
        ++ [(({ name_ := "WALK", isRos_ := false,
                parameterPath_ := "/opt/my_package/config/WALK.xml" } : ControllerOptions),
             ({} : ControllerOptions))]
        ++ parseControllerList (demoEnv demoParams) (some (XmlRpcValue.asArray [])) :=
  ⟨rfl,
    (setupControllersFromParameterServer_emergency_defaults (demoEnv demoParams)
      [XmlRpcValue.asInt 3] []
      (demoEntry [("controller", demoController "WALK" false),
        ("emergency_controller", .asString "STAND")])
      (.asStruct [("controller", demoController "WALK" false),
        ("emergency_controller", .asString "STAND")])
      (demoController "WALK" false) "WALK" "my_package" "config/WALK.xml" false
      rfl rfl rfl rfl rfl rfl rfl).1⟩

/-- C11, the code at the documented yaml pattern: the entry is parsed into a
pair whose nominal options are the configured ones and whose emergency options
are the default ones (empty name, `is_ros` false, empty parameter path),
because `emergency_controller` has `package` where the code asks for
`parameter_package`. -/
theorem documented_pattern_loses_emergency_controller :
    parseControllerList (demoEnv noParams) (some (XmlRpcValue.asArray [documentedEntry])) =
      [(({ name_ := "MyController", isRos_ := true,
           parameterPath_ := "/opt/my_controller_package/my_param_folder/my_param_file.xml" }
          : ControllerOptions),
        ({ name_ := "", isRos_ := false, parameterPath_ := "" } : ControllerOptions))] ∧
    stringMember ((documentedEntry.member "controller_pair").member "emergency_controller")
      "name" = some "MyEmergencyController " ∧
    wellFormedEmergency documentedEntry = false := by
  decide

/-- C12, the code at a record whose name differs from its plugin name: the
loader knows the class `WALK`; the entry with `plugin_name: WALK` and
`name: walk_1` is parsed into options with name `walk_1` and an empty plugin
name; and for options with plugin name `WALK` and name `walk_1`
`setupControllerPair` asks the loader for `walk_1`, which fails. -/
theorem setupControllerPair_looks_up_name_not_plugin_name :
    (demoEnv noParams).classAvailable LoaderKind.controllerLoader_ "WALK" = true ∧
    parseControllerList (demoEnv noParams) (some (XmlRpcValue.asArray [renamedEntry])) =
      [(({ pluginName_ := "", name_ := "walk_1",
           parameterPath_ := "/opt/my_package/config/walk_1.xml" } : ControllerOptions),
        ({} : ControllerOptions))] ∧
    setupControllerPair (demoEnv noParams)
        (({ pluginName_ := "WALK", name_ := "walk_1" } : ControllerOptions),
         ({} : ControllerOptions)) initialState =
      (some false,
       { manager := [],
         log := [Event.createUnmanagedInstance LoaderKind.controllerLoader_ "walk_1" false] }) := by
  decide

/-- C13: whatever the core answers to `switchController(req.name)`, the handler
returns true, leaves the base manager as the core call left it, and sets the
status by the mapping ERROR to STATUS_ERROR, NOTFOUND to STATUS_NOTFOUND,
RUNNING to STATUS_RUNNING, SWITCHING to STATUS_SWITCHED, which covers the four
values of the response enum. -/
theorem switchController_maps_every_response {C : Type}
    (coreSwitchController : String → C → SwitchResponse × C) (req_name : String) (c c1 : C)
    (response : SwitchResponse) (hcore : coreSwitchController req_name c = (response, c1)) :
    (switchController coreSwitchController req_name c).1 = true ∧
    (switchController coreSwitchController req_name c).2.2 = c1 ∧
    (response = SwitchResponse.ERROR →
      (switchController coreSwitchController req_name c).2.1
        = SwitchControllerStatus.STATUS_ERROR) ∧
    (response = SwitchResponse.NOTFOUND →
      (switchController coreSwitchController req_name c).2.1
        = SwitchControllerStatus.STATUS_NOTFOUND) ∧
    (response = SwitchResponse.RUNNING →
      (switchController coreSwitchController req_name c).2.1
        = SwitchControllerStatus.STATUS_RUNNING) ∧
    (response = SwitchResponse.SWITCHING →
      (switchController coreSwitchController req_name c).2.1
        = SwitchControllerStatus.STATUS_SWITCHED) ∧
    (response = SwitchResponse.ERROR ∨ response = SwitchResponse.NOTFOUND ∨
      response = SwitchResponse.RUNNING ∨ response = SwitchResponse.SWITCHING) := by
  unfold switchController
  rw [hcore]
  refine ⟨rfl, rfl, ?_, ?_, ?_, ?_, ?_⟩
  · rintro rfl; rfl
  · rintro rfl; rfl
  · rintro rfl; rfl
  · rintro rfl; rfl
  · cases response <;> simp

/-- Witness of C13: a core that answers `SWITCHING` and counts the requests. -/
theorem switchController_maps_every_response_witness :
    switchController (fun _ (n : Nat) => (SwitchResponse.SWITCHING, n + 1)) "WALK" 0 =
      (true, SwitchControllerStatus.STATUS_SWITCHED, 1) := by
  have h := switchController_maps_every_response
    (fun _ (n : Nat) => (SwitchResponse.SWITCHING, n + 1)) "WALK" 0 1 SwitchResponse.SWITCHING rfl
  exact Prod.ext h.1 (Prod.ext (h.2.2.2.2.2.1 rfl) h.2.1)

/-- C14: whatever the type of the emergency stop, `notifyEmergencyStop`
publishes two messages, the first with `is_ok` false and right after it the
second with `is_ok` true, and nothing else. -/
theorem notifyEmergencyStop_publishes_false_then_true (now : Nat → Nat)
    (type : EmergencyStopType) (t : EmergencyStopTopic) :
    (notifyEmergencyStop now type t).published =
      t.published ++ [{ stamp := now t.timeCalls, is_ok := false },
                      { stamp := now (t.timeCalls + 1), is_ok := true }] ∧
    ∀ other : EmergencyStopType,
      notifyEmergencyStop now other t = notifyEmergencyStop now type t := by
  refine ⟨?_, fun _ => rfl⟩
  simp [notifyEmergencyStop, publishEmergencyState]

/-- C16: calling `emergency_stop` k times in succession, k at least 1, ends in
the state that one call ends in (active controller and latch), from every
state; that state is latched. -/
theorem emergency_stop_idempotent (core : CoreManager) (s : CoreState) (k : Nat)
    (hk : 1 ≤ k) :
    (emergency_stop core)^[k] s = emergency_stop core s ∧
    (emergency_stop core s).estop_latched = true := by
  have hlatched : ∀ s' : CoreState, (emergency_stop core s').estop_latched = true := by
    intro s'
    unfold emergency_stop
    by_cases h : s'.estop_latched = true
    · simp [h]
    · simp [h]
  have hagain : ∀ s' : CoreState,
      emergency_stop core (emergency_stop core s') = emergency_stop core s' := by
    intro s'
    have hnoop : ∀ t : CoreState, t.estop_latched = true → emergency_stop core t = t := by
      intro t ht
      simp [emergency_stop, ht]
    exact hnoop _ (hlatched s')
  refine ⟨?_, hlatched s⟩
  induction k with
  | zero => omega
  | succ n ih =>
    rcases Nat.eq_zero_or_pos n with h0 | hpos
    · subst h0; rfl
    · rw [Function.iterate_succ_apply', ih hpos, hagain]

/-- Witness of C16: three emergency stops in a row with `WALK` active end with
`STAND` active and the latch set, as one does. -/
theorem emergency_stop_idempotent_witness :
    (emergency_stop demoCore)^[3] { active := "WALK", estop_latched := false } =
      emergency_stop demoCore { active := "WALK", estop_latched := false } ∧
    emergency_stop demoCore { active := "WALK", estop_latched := false } =
      { active := "STAND", estop_latched := true } :=
  ⟨(emergency_stop_idempotent demoCore { active := "WALK", estop_latched := false } 3
      (by decide)).1,
    by decide⟩

theorem wellFormedController_name {controller : XmlRpcValue}
    (h : wellFormedController controller = true) :
    ∃ name, stringMember controller "name" = some name := by
  simp only [wellFormedController, Bool.and_eq_true] at h
  exact Option.isSome_iff_exists.mp h.1.1.1

theorem assignDataMembers_name_ {M : Type} (env : Env M) (options : ControllerOptions)
    (controller : XmlRpcValue) :
    (assignDataMembers env options controller).name_ = (controller.member "name").toStdString :=
  rfl

theorem parseControllerPair_names {M : Type} (env : Env M) (entry : XmlRpcValue) :
    (parseControllerPair env entry []
      (({} : ControllerOptions), ({} : ControllerOptions))).1.map (fun pair => pair.1.name_) =
      (nominalName entry).toList := by
  rw [parseControllerPair_eq]
  unfold nominalName
  rcases Option.eq_none_or_eq_some (structMember entry "controller_pair") with
    h1 | ⟨controller_pair, h1⟩
  · simp [h1]
  · simp only [h1]
    rcases Option.eq_none_or_eq_some (structMember controller_pair "controller") with
      h2 | ⟨controller, h2⟩
    · simp [h2]
    · simp only [h2]
      by_cases hwf : wellFormedController controller = true
      · obtain ⟨name, hname⟩ := wellFormedController_name hwf
        simp only [hwf, if_true, hname, Option.toList]
        rcases Option.eq_none_or_eq_some
            (structMember controller_pair "emergency_controller") with h3 | ⟨emergency, h3⟩
        · simp [h3, assignDataMembers_name_, stringMember_eq_some hname]
        · simp only [h3]
          by_cases hwe : wellFormedController emergency = true
          · simp [hwe, assignDataMembers_name_, stringMember_eq_some hname]
          · simp [hwe, assignDataMembers_name_, stringMember_eq_some hname]
      · simp [hwf]

theorem parseControllerList_head {M : Type} (env : Env M) (entry : XmlRpcValue)
    (rest : List XmlRpcValue) :
    parseControllerList env (some (XmlRpcValue.asArray (entry :: rest))) =
      (parseControllerPair env entry []
        (({} : ControllerOptions), ({} : ControllerOptions))).1 ++
      parseControllerList env (some (XmlRpcValue.asArray rest)) := by
  have h := parseControllerList_cons env [] rest entry
  simp only [List.nil_append] at h
  rw [h, parseControllerList_singleton]
  rfl

theorem parseControllerList_names {M : Type} (env : Env M) (entries : List XmlRpcValue) :
    (parseControllerList env (some (XmlRpcValue.asArray entries))).map
        (fun pair => pair.1.name_) = entries.filterMap nominalName := by
  induction entries with
  | nil => rfl
  | cons entry rest ih =>
    rw [parseControllerList_head, List.map_append, ih, parseControllerPair_names,
      List.filterMap_cons]
    cases nominalName entry <;> rfl

theorem parseControllerList_length {M : Type} (env : Env M) (entries : List XmlRpcValue) :
    (parseControllerList env (some (XmlRpcValue.asArray entries))).length =
      (entries.filter wellFormedEntry).length := by
  induction entries with
  | nil => rfl
  | cons entry rest ih =>
    rw [parseControllerList_head, List.length_append, ih, parseControllerPair_length,
      List.filter_cons]
    by_cases h : wellFormedEntry entry = true
    · simp [h, Nat.add_comm]
    · simp [h]

theorem nominalName_isSome (entry : XmlRpcValue) :
    (nominalName entry).isSome = wellFormedEntry entry := by
  unfold nominalName wellFormedEntry
  rcases Option.eq_none_or_eq_some (structMember entry "controller_pair") with
    h1 | ⟨controller_pair, h1⟩
  · simp [h1]
  · simp only [h1]
    rcases Option.eq_none_or_eq_some (structMember controller_pair "controller") with
      h2 | ⟨controller, h2⟩
    · simp [h2]
    · simp only [h2]
      by_cases hwf : wellFormedController controller = true
      · obtain ⟨name, hname⟩ := wellFormedController_name hwf
        simp [hwf, hname]
      · simp [hwf]

/-- C19: with the failproof name readable and `controller_pairs` an array, the
list handed to `setupControllers` holds one pair for every well-formed entry
and none for the others, in the order of the array: the nominal names of the
pairs are the names of the well-formed entries in their order, so the list is
as long as the sequence of well-formed entries and not longer than the
array. -/
theorem setupControllersFromParameterServer_keeps_order {M : Type} (env : Env M)
    (s : ManagerState M) (failproofControllerName : String) (entries : List XmlRpcValue)
    (hname : env.param "controller_manager/failproof_controller"
      = some (XmlRpcValue.asString failproofControllerName))
    (hpairs : env.param "controller_manager/controller_pairs"
      = some (XmlRpcValue.asArray entries)) :
    ∃ pairs : List ControllerOptionsPair,
      setupControllersFromParameterServer env s =
        setupControllers env failproofControllerName pairs
          ((s.record (Event.getParam "controller_manager/failproof_controller" true)).record
            (Event.getParam "controller_manager/controller_pairs" true)) ∧
      pairs.map (fun pair => pair.1.name_) = entries.filterMap nominalName ∧
      pairs.length = (entries.filter wellFormedEntry).length ∧
      pairs.length ≤ entries.length ∧
      ∀ entry, (nominalName entry).isSome = wellFormedEntry entry := by
  refine ⟨parseControllerList env (some (XmlRpcValue.asArray entries)), ?_,
    parseControllerList_names env entries, parseControllerList_length env entries, ?_,
    nominalName_isSome⟩
  · unfold setupControllersFromParameterServer getParamString getParamXmlRpc
    simp only [hname, hpairs]
  · rw [parseControllerList_length]
    exact List.length_filter_le _ _

/-- Witness of C19 on `demoParams`: of the three entries the second and the
third are well formed, and the parsed pairs are `WALK`, `TROT` in that
order. -/
theorem setupControllersFromParameterServer_keeps_order_witness :
    ∃ pairs : List ControllerOptionsPair,
      setupControllersFromParameterServer (demoEnv demoParams) initialState =
        setupControllers (demoEnv demoParams) "FP" pairs
          ((initialState.record
              (Event.getParam "controller_manager/failproof_controller" true)).record
            (Event.getParam "controller_manager/controller_pairs" true)) ∧
      pairs.map (fun pair => pair.1.name_) = ["WALK", "TROT"] := by
  obtain ⟨pairs, h1, h2, _⟩ :=
    setupControllersFromParameterServer_keeps_order (demoEnv demoParams) initialState "FP"
      [.asInt 3,
       demoEntry [("controller", demoController "WALK" false),
                  ("emergency_controller", .asString "STAND")],
       demoEntry [("controller", demoController "TROT" true),
                  ("emergency_controller", demoController "STAND" false)]] rfl rfl
  exact ⟨pairs, h1, h2.trans (by decide)⟩

/-- C20: `setupControllerPair` asks `controllerRosLoader_` for the nominal
controller and gives it the node handle if `options.first.isRos_` is true, and
asks `controllerLoader_` and sets no node handle otherwise; when it gets to
the emergency controller (nominal loaded, emergency name not empty) it asks
`emergencyControllerRosLoader_` and sets the node handle if
`options.second.isRos_` is true, and asks `emergencyControllerLoader_` and sets
none otherwise, whatever the flag of the nominal controller.  The calls logged
by `setupControllerPair` are exactly these. -/
theorem setupControllerPair_loader_follows_own_flag {M : Type} (env : Env M)
    (options : ControllerOptionsPair) (s : ManagerState M) :
    ∃ accepted : Bool,
      (setupControllerPair env options s).2.log =
        s.log ++
          Event.createUnmanagedInstance
            (if options.1.isRos_ = true then LoaderKind.controllerRosLoader_
             else LoaderKind.controllerLoader_)
            options.1.name_
            (env.classAvailable
              (if options.1.isRos_ = true then LoaderKind.controllerRosLoader_
               else LoaderKind.controllerLoader_) options.1.name_) ::
          (if env.classAvailable
                (if options.1.isRos_ = true then LoaderKind.controllerRosLoader_
                 else LoaderKind.controllerLoader_) options.1.name_ = true then
            (if options.2.name_ = "" then []
             else
              [Event.createUnmanagedInstance
                (if options.2.isRos_ = true then LoaderKind.emergencyControllerRosLoader_
                 else LoaderKind.emergencyControllerLoader_)
                options.2.name_
                (env.classAvailable
                  (if options.2.isRos_ = true then LoaderKind.emergencyControllerRosLoader_
                   else LoaderKind.emergencyControllerLoader_) options.2.name_)]) ++
            [Event.addControllerPair
              { loader := if options.1.isRos_ = true then LoaderKind.controllerRosLoader_
                          else LoaderKind.controllerLoader_,
                lookupName := options.1.name_,
                nodeHandleSet := options.1.isRos_,
                stateAndCommandSet := true,
                parameterPath := some options.1.parameterPath_ }
              (if options.2.name_ ≠ "" ∧
                  env.classAvailable
                    (if options.2.isRos_ = true then LoaderKind.emergencyControllerRosLoader_
                     else LoaderKind.emergencyControllerLoader_) options.2.name_ = true then
                some
                  { loader := if options.2.isRos_ = true then
                                LoaderKind.emergencyControllerRosLoader_
                              else LoaderKind.emergencyControllerLoader_,
                    lookupName := options.2.name_,
                    nodeHandleSet := options.2.isRos_,
                    stateAndCommandSet := true,
                    parameterPath := some options.2.parameterPath_ }
               else none)
              accepted]
           else []) := by
  rw [setupControllerPair_eq, loadController_eq, loadEmergencyController_eq]
  simp only [nominalLoader, emergencyLoader]
  generalize (if options.1.isRos_ = true then LoaderKind.controllerRosLoader_
    else LoaderKind.controllerLoader_) = nominal
  generalize (if options.2.isRos_ = true then LoaderKind.emergencyControllerRosLoader_
    else LoaderKind.emergencyControllerLoader_) = emergency
  by_cases hn : env.classAvailable nominal options.1.name_ = true
  · by_cases he : options.2.name_ = ""
    · simp only [hn, he, if_true, addControllerPair, ManagerState.record]
      exact ⟨(env.addControllerPair s.manager
        { loader := nominal, lookupName := options.1.name_, nodeHandleSet := options.1.isRos_,
          stateAndCommandSet := true, parameterPath := some options.1.parameterPath_ }
        none).1, by simp⟩
    · by_cases ha : env.classAvailable emergency options.2.name_ = true
      · simp only [hn, he, ha, if_true, if_false, addControllerPair, ManagerState.record]
        exact ⟨(env.addControllerPair s.manager
          { loader := nominal, lookupName := options.1.name_, nodeHandleSet := options.1.isRos_,
            stateAndCommandSet := true, parameterPath := some options.1.parameterPath_ }
          (some
            { loader := emergency, lookupName := options.2.name_,
              nodeHandleSet := options.2.isRos_, stateAndCommandSet := true,
              parameterPath := some options.2.parameterPath_ })).1, by simp [he]⟩
      · simp only [hn, he, ha, if_true, if_false, addControllerPair, ManagerState.record]
        exact ⟨(env.addControllerPair s.manager
          { loader := nominal, lookupName := options.1.name_, nodeHandleSet := options.1.isRos_,
            stateAndCommandSet := true, parameterPath := some options.1.parameterPath_ }
          none).1, by simp⟩
  · simp only [Bool.not_eq_true] at hn
    simp only [hn, ManagerState.record]
    exact ⟨true, by simp⟩

theorem assignDataMembers_parameterPath_ {M : Type} (env : Env M) (options : ControllerOptions)
    (controller : XmlRpcValue) :
    (assignDataMembers env options controller).parameterPath_ =
      env.getPath (controller.member "parameter_package").toStdString ++ "/" ++
        (controller.member "parameter_path").toStdString :=
  rfl

/-- The instances that `setupControllerPair` hands to `addControllerPair` carry
the parameter paths of the options. -/
theorem setupControllerPair_injects_paths {M : Type} (env : Env M)
    (options : ControllerOptionsPair) (s : ManagerState M) :
    ∃ evs, (setupControllerPair env options s).2.log = s.log ++ evs ∧
      ∀ controller emergency accepted,
        Event.addControllerPair controller emergency accepted ∈ evs →
        controller.parameterPath = some options.1.parameterPath_ ∧
        ∀ instance_, emergency = some instance_ →
          instance_.parameterPath = some options.2.parameterPath_ := by
  rw [setupControllerPair_eq, loadController_eq, loadEmergencyController_eq]
  by_cases hn : env.classAvailable (nominalLoader options) options.1.name_ = true
  · by_cases he : options.2.name_ = ""
    · simp only [hn, he, if_true, addControllerPair, ManagerState.record]
      refine ⟨_, List.append_assoc _ [_] [_], ?_⟩
      intro controller emergency accepted hmem
      simp at hmem
      obtain ⟨rfl, rfl, _⟩ := hmem
      simp
    · by_cases ha : env.classAvailable (emergencyLoader options) options.2.name_ = true
      · simp only [hn, he, ha, if_true, if_false, addControllerPair, ManagerState.record]
        refine ⟨_, by rw [List.append_assoc, List.append_assoc], ?_⟩
        intro controller emergency accepted hmem
        simp at hmem
        obtain ⟨rfl, rfl, _⟩ := hmem
        simp
      · simp only [hn, he, ha, if_true, if_false, addControllerPair, ManagerState.record]
        refine ⟨_, by rw [List.append_assoc, List.append_assoc], ?_⟩
        intro controller emergency accepted hmem
        simp at hmem
        obtain ⟨rfl, rfl, _⟩ := hmem
        simp
  · simp only [hn, ManagerState.record]
    refine ⟨_, rfl, ?_⟩
    intro controller emergency accepted hmem
    simp at hmem

/-- When the nominal class is resolved, the last call that `setupControllerPair`
logs is `addControllerPair`, with instances that carry the parameter paths of
the options; no other call of `addControllerPair` is logged. -/
theorem setupControllerPair_hands_over_paths {M : Type} (env : Env M)
    (options : ControllerOptionsPair) (s : ManagerState M)
    (hnominal : env.classAvailable (nominalLoader options) options.1.name_ = true) :
    ∃ evs instance_ emergency accepted,
      (setupControllerPair env options s).2.log =
        s.log ++ evs ++ [Event.addControllerPair instance_ emergency accepted] ∧
      evs.filter Event.isAddControllerPair = [] ∧
      instance_.parameterPath = some options.1.parameterPath_ ∧
      (∀ instance2, emergency = some instance2 →
        instance2.parameterPath = some options.2.parameterPath_) ∧
      (options.2.name_ ≠ "" →
        env.classAvailable (emergencyLoader options) options.2.name_ = true →
        emergency.isSome = true) := by
  rw [setupControllerPair_eq, loadController_eq, loadEmergencyController_eq]
  generalize hnom :
    ({ loader := nominalLoader options, lookupName := options.1.name_,
       nodeHandleSet := options.1.isRos_, stateAndCommandSet := true,
       parameterPath := some options.1.parameterPath_ } : PluginInstance) = nom
  have hnompath : nom.parameterPath = some options.1.parameterPath_ := by rw [← hnom]
  generalize hem :
    ({ loader := emergencyLoader options, lookupName := options.2.name_,
       nodeHandleSet := options.2.isRos_, stateAndCommandSet := true,
       parameterPath := some options.2.parameterPath_ } : PluginInstance) = em
  have hempath : em.parameterPath = some options.2.parameterPath_ := by rw [← hem]
  by_cases he : options.2.name_ = ""
  · simp only [hnominal, he, if_true, addControllerPair, ManagerState.record]
    refine ⟨[Event.createUnmanagedInstance (nominalLoader options) options.1.name_ true],
      nom, none, (env.addControllerPair s.manager nom none).1, rfl, ?_, hnompath, ?_, ?_⟩
    · simp [List.filter, Event.isAddControllerPair]
    · intro i h
      cases h
    · intro h
      exact absurd rfl h
  · by_cases ha : env.classAvailable (emergencyLoader options) options.2.name_ = true
    · simp only [hnominal, he, ha, if_true, if_false, addControllerPair, ManagerState.record]
      refine ⟨[Event.createUnmanagedInstance (nominalLoader options) options.1.name_ true,
          Event.createUnmanagedInstance (emergencyLoader options) options.2.name_ true],
        nom, some em, (env.addControllerPair s.manager nom (some em)).1, ?_, ?_, hnompath,
        ?_, ?_⟩
      · simp
      · simp [List.filter, Event.isAddControllerPair]
      · intro i h
        simp only [Option.some.injEq] at h
        subst h
        exact hempath
      · intro _ _
        rfl
    · simp only [hnominal, he, ha, if_true, if_false, addControllerPair, ManagerState.record]
      refine ⟨[Event.createUnmanagedInstance (nominalLoader options) options.1.name_ true,
          Event.createUnmanagedInstance (emergencyLoader options) options.2.name_ false],
        nom, none, (env.addControllerPair s.manager nom none).1, ?_, ?_, hnompath, ?_, ?_⟩
      · simp only [Bool.not_eq_true] at ha
        simp [ha]
      · simp [List.filter, Event.isAddControllerPair]
      · intro i h
        cases h
      · intro _ h
        cases h

/-- C21: a well-formed `controller` of an entry is parsed into nominal options
whose parameter path is the package path of `parameter_package`, then `/`,
then `parameter_path`; a well-formed `emergency_controller` likewise into the
emergency options; and `setupControllerPair`, run on the parsed pair, hands
`addControllerPair` instances whose parameter path, set by `setParameterPath`,
is the one of the options: when the nominal class is resolved, its one call of
`addControllerPair` is the last call it logs, the nominal instance carries
the nominal parameter path, and the emergency instance, which is there when
the emergency name is not empty and its class is resolved, carries the
emergency parameter path. -/
theorem parameter_path_is_package_path_and_parameter_path {M : Type} (env : Env M)
    (before after : List XmlRpcValue) (entry controller_pair controller : XmlRpcValue)
    (package path : String)
    (hpair : structMember entry "controller_pair" = some controller_pair)
    (hcontroller : structMember controller_pair "controller" = some controller)
    (hwf : wellFormedController controller = true)
    (hpackage : stringMember controller "parameter_package" = some package)
    (hpath : stringMember controller "parameter_path" = some path) :
    ∃ pair : ControllerOptionsPair,
      parseControllerList env (some (XmlRpcValue.asArray (before ++ entry :: after))) =
        parseControllerList env (some (XmlRpcValue.asArray before)) ++ [pair] ++
          parseControllerList env (some (XmlRpcValue.asArray after)) ∧
      pair.1.parameterPath_ = env.getPath package ++ "/" ++ path ∧
      (∀ (emergency : XmlRpcValue) (package2 path2 : String),
        structMember controller_pair "emergency_controller" = some emergency →
        wellFormedController emergency = true →
        stringMember emergency "parameter_package" = some package2 →
        stringMember emergency "parameter_path" = some path2 →
        pair.2.parameterPath_ = env.getPath package2 ++ "/" ++ path2) ∧
      (∀ s : ManagerState M,
        ∃ evs, (setupControllerPair env pair s).2.log = s.log ++ evs ∧
          ∀ instance_ emergency accepted,
            Event.addControllerPair instance_ emergency accepted ∈ evs →
            instance_.parameterPath = some pair.1.parameterPath_ ∧
            ∀ instance2, emergency = some instance2 →
              instance2.parameterPath = some pair.2.parameterPath_) ∧
      ∀ s : ManagerState M,
        env.classAvailable
          (if pair.1.isRos_ = true then LoaderKind.controllerRosLoader_
           else LoaderKind.controllerLoader_) pair.1.name_ = true →
        ∃ evs instance_ emergency accepted,
          (setupControllerPair env pair s).2.log =
            s.log ++ evs ++ [Event.addControllerPair instance_ emergency accepted] ∧
          evs.filter Event.isAddControllerPair = [] ∧
          instance_.parameterPath = some pair.1.parameterPath_ ∧
          (∀ instance2, emergency = some instance2 →
            instance2.parameterPath = some pair.2.parameterPath_) ∧
          (pair.2.name_ ≠ "" →
            env.classAvailable
              (if pair.2.isRos_ = true then LoaderKind.emergencyControllerRosLoader_
               else LoaderKind.emergencyControllerLoader_) pair.2.name_ = true →
            emergency.isSome = true) := by
  have hnominal : ∀ options : ControllerOptions,
      (assignDataMembers env options controller).parameterPath_ =
        env.getPath package ++ "/" ++ path := by
    intro options
    rw [assignDataMembers_parameterPath_, stringMember_eq_some hpackage,
      stringMember_eq_some hpath]
  rw [parseControllerList_cons, parseControllerList_singleton, parseControllerPair_eq]
  simp only [hpair, hcontroller, hwf, if_true]
  rcases Option.eq_none_or_eq_some (structMember controller_pair "emergency_controller") with
    h3 | ⟨emergency, h3⟩
  · simp only [h3]
    refine ⟨_, rfl, hnominal _, ?_, fun s => setupControllerPair_injects_paths env _ s,
      fun s h => setupControllerPair_hands_over_paths env _ s h⟩
    intro emergency package2 path2 h
    simp at h
  · simp only [h3]
    by_cases hwe : wellFormedController emergency = true
    · simp only [hwe, if_true]
      refine ⟨_, rfl, hnominal _, ?_, fun s => setupControllerPair_injects_paths env _ s,
      fun s h => setupControllerPair_hands_over_paths env _ s h⟩
      intro emergency2 package2 path2 h _ hp2 hq2
      simp only [Option.some.injEq] at h
      subst h
      show (assignDataMembers env _ emergency).parameterPath_ = _
      rw [assignDataMembers_parameterPath_, stringMember_eq_some hp2,
        stringMember_eq_some hq2]
    · simp only [hwe, Bool.false_eq_true, if_false]
      refine ⟨_, rfl, hnominal _, ?_, fun s => setupControllerPair_injects_paths env _ s,
      fun s h => setupControllerPair_hands_over_paths env _ s h⟩
      intro emergency2 package2 path2 h hwe2
      simp only [Option.some.injEq] at h
      subst h
      exact absurd hwe2 hwe

/-- Witness of C21 at the third entry of `demoParams`: both parameter paths are
the package path `/opt/my_package`, `/`, and the configured file, and the
instances handed to `addControllerPair` carry them. -/
theorem parameter_path_is_package_path_and_parameter_path_witness :
    ∃ pair : ControllerOptionsPair,
      parseControllerList (demoEnv demoParams) (some (XmlRpcValue.asArray
        ([] ++ demoEntry [("controller", demoController "TROT" true),
            ("emergency_controller", demoController "STAND" false)] :: []))) =
        parseControllerList (demoEnv demoParams) (some (XmlRpcValue.asArray [])) ++ [pair] ++
          parseControllerList (demoEnv demoParams) (some (XmlRpcValue.asArray [])) ∧
      pair.1.parameterPath_ = "/opt/my_package/config/TROT.xml" ∧
      pair.2.parameterPath_ = "/opt/my_package/config/STAND.xml" ∧
      ∃ evs instance_ instance2 accepted,
        (setupControllerPair (demoEnv demoParams) pair initialState).2.log =
          initialState.log ++ evs ++
            [Event.addControllerPair instance_ (some instance2) accepted] ∧
        instance_.parameterPath = some "/opt/my_package/config/TROT.xml" ∧
        instance2.parameterPath = some "/opt/my_package/config/STAND.xml" := by
  obtain ⟨pair, h1, h2, h3, _, h5⟩ :=
    parameter_path_is_package_path_and_parameter_path (demoEnv demoParams) [] []
      (demoEntry [("controller", demoController "TROT" true),
        ("emergency_controller", demoController "STAND" false)])
      (.asStruct [("controller", demoController "TROT" true),
        ("emergency_controller", demoController "STAND" false)])
      (demoController "TROT" true) "my_package" "config/TROT.xml" rfl rfl rfl rfl rfl
  have hparsed : parseControllerList (demoEnv demoParams) (some (XmlRpcValue.asArray
      [demoEntry [("controller", demoController "TROT" true),
        ("emergency_controller", demoController "STAND" false)]])) =
      [(({ name_ := "TROT", isRos_ := true,
           parameterPath_ := "/opt/my_package/config/TROT.xml" } : ControllerOptions),
        ({ name_ := "STAND", isRos_ := false,
           parameterPath_ := "/opt/my_package/config/STAND.xml" } : ControllerOptions))] := by
    decide
  have hpair :
      [(({ name_ := "TROT", isRos_ := true,
           parameterPath_ := "/opt/my_package/config/TROT.xml" } : ControllerOptions),
        ({ name_ := "STAND", isRos_ := false,
           parameterPath_ := "/opt/my_package/config/STAND.xml" } : ControllerOptions))]
      = [pair] := hparsed.symm.trans h1
  have hp := (List.cons.inj hpair).1
  subst hp
  obtain ⟨evs, instance_, emergency, accepted, hlog, _, hpath, hpath2, hsome⟩ :=
    h5 initialState (by decide)
  obtain ⟨instance2, hinstance2⟩ := Option.isSome_iff_exists.mp
    (hsome (by decide) (by decide))
  subst hinstance2
  exact ⟨_, h1, h2.trans (by decide),
    (h3 (demoController "STAND" false) "my_package" "config/STAND.xml" rfl rfl rfl
      rfl).trans (by decide),
    evs, instance_, instance2, accepted, hlog, hpath, hpath2 instance2 rfl⟩

theorem notifyEmergencyStop_retained (now : Nat → Nat) (type : EmergencyStopType)
    (t : EmergencyStopTopic) :
    (notifyEmergencyStop now type t).retained =
      some { stamp := now (t.timeCalls + 1), is_ok := true } := by
  simp [EmergencyStopTopic.retained, notifyEmergencyStop, publishEmergencyState]

theorem foldl_notifyEmergencyStop_retained (now : Nat → Nat) (types : List EmergencyStopType)
    (t : EmergencyStopTopic)
    (ht : ∃ msg, t.retained = some msg ∧ msg.is_ok = true) :
    ∃ msg, (types.foldl (fun topic type => notifyEmergencyStop now type topic) t).retained
      = some msg ∧ msg.is_ok = true := by
  induction types generalizing t with
  | nil => exact ht
  | cons type rest ih =>
    simp only [List.foldl_cons]
    exact ih _ ⟨_, notifyEmergencyStop_retained now type t, rfl⟩

/-- C22 fails as stated: after the constructor, the first publish of a call of
`notifyEmergencyStop` leaves a message with `is_ok` false as the last message
published, and that is the value the latched topic retains until the second
publish of the call: of the three messages published by the constructor and
one call, the second has `is_ok` false. -/
theorem retained_emergency_state_is_false_inside_notify :
    (publishEmergencyState (fun k => k) false (ControllerManagerRos (fun k => k) 0)).retained
      = some { stamp := 1, is_ok := false } ∧
    notifyEmergencyStop (fun k => k) EmergencyStopType.OperatorEmergencyStop
        (ControllerManagerRos (fun k => k) 0) =
      publishEmergencyState (fun k => k) true
        (publishEmergencyState (fun k => k) false (ControllerManagerRos (fun k => k) 0)) ∧
    (notifyEmergencyStop (fun k => k) EmergencyStopType.OperatorEmergencyStop
        (ControllerManagerRos (fun k => k) 0)).published =
      [{ stamp := 0, is_ok := true }, { stamp := 1, is_ok := false },
       { stamp := 2, is_ok := true }] ∧
    ¬ ∀ msg ∈ (notifyEmergencyStop (fun k => k) EmergencyStopType.OperatorEmergencyStop
        (ControllerManagerRos (fun k => k) 0)).published, msg.is_ok = true := by
  decide

/-- C22 as amended: after the constructor, and after any sequence of completed
calls of `notifyEmergencyStop` that follows it, the last message published on
the latched topic, which is the value the topic retains, has `is_ok` true;
a further call of `notifyEmergencyStop` is a publish of false followed by a
publish of true, and between the two the retained value has `is_ok` false. -/
theorem retained_emergency_state_is_ok (now : Nat → Nat) (timeCalls : Nat)
    (types : List EmergencyStopType) :
    (∃ msg,
      (types.foldl (fun topic type => notifyEmergencyStop now type topic)
        (ControllerManagerRos now timeCalls)).retained = some msg ∧
      msg.is_ok = true) ∧
    (∀ type : EmergencyStopType,
      notifyEmergencyStop now type
          (types.foldl (fun topic type => notifyEmergencyStop now type topic)
            (ControllerManagerRos now timeCalls)) =
        publishEmergencyState now true
          (publishEmergencyState now false
            (types.foldl (fun topic type => notifyEmergencyStop now type topic)
              (ControllerManagerRos now timeCalls)))) ∧
    ∃ msg,
      (publishEmergencyState now false
        (types.foldl (fun topic type => notifyEmergencyStop now type topic)
          (ControllerManagerRos now timeCalls))).retained = some msg ∧
      msg.is_ok = false := by
  refine ⟨?_, fun _ => rfl, ?_⟩
  · apply foldl_notifyEmergencyStop_retained
    exact ⟨{ stamp := now timeCalls, is_ok := true },
      by simp [EmergencyStopTopic.retained, ControllerManagerRos, publishEmergencyState], rfl⟩
  · refine ⟨{ stamp := now (types.foldl (fun topic type => notifyEmergencyStop now type topic)
      (ControllerManagerRos now timeCalls)).timeCalls, is_ok := false }, ?_, rfl⟩
    simp [EmergencyStopTopic.retained, publishEmergencyState]

theorem parseControllerPair_configuredFields {M : Type} (env : Env M) (entry : XmlRpcValue)
    (pair pair2 : ControllerOptionsPair) :
    (parseControllerPair env entry [] pair).1.map configuredFields =
      (parseControllerPair env entry [] pair2).1.map configuredFields := by
  simp only [parseControllerPair_eq]
  rcases Option.eq_none_or_eq_some (structMember entry "controller_pair") with
    h1 | ⟨controller_pair, h1⟩
  · simp [h1]
  · simp only [h1]
    rcases Option.eq_none_or_eq_some (structMember controller_pair "controller") with
      h2 | ⟨controller, h2⟩
    · simp [h2]
    · simp only [h2]
      by_cases hwf : wellFormedController controller = true
      · simp only [hwf, if_true]
        rcases Option.eq_none_or_eq_some
            (structMember controller_pair "emergency_controller") with h3 | ⟨emergency, h3⟩
        · simp [h3, configuredFields, assignDataMembers]
        · simp only [h3]
          by_cases hwe : wellFormedController emergency = true
          · simp [hwe, configuredFields, assignDataMembers]
          · simp [hwe, configuredFields, assignDataMembers]
      · simp [hwf]

/-- C23: what an entry of `controller_pairs` contributes to the parsed list
is the same in every array that holds it, whatever stands before and after it;
and whatever the reused variable `controller_option_pair` holds when the entry
is reached, the name, the `is_ros` flag and the parameter path of the nominal
and of the emergency options of the pair pushed are the same. -/
theorem parsed_pair_depends_on_its_entry_only {M : Type} (env : Env M)
    (before after before2 after2 : List XmlRpcValue) (entry : XmlRpcValue)
    (pair pair2 : ControllerOptionsPair) :
    (∃ contribution,
      parseControllerList env (some (XmlRpcValue.asArray (before ++ entry :: after))) =
        parseControllerList env (some (XmlRpcValue.asArray before)) ++ contribution ++
          parseControllerList env (some (XmlRpcValue.asArray after)) ∧
      parseControllerList env (some (XmlRpcValue.asArray (before2 ++ entry :: after2))) =
        parseControllerList env (some (XmlRpcValue.asArray before2)) ++ contribution ++
          parseControllerList env (some (XmlRpcValue.asArray after2))) ∧
    (parseControllerPair env entry [] pair).1.map configuredFields =
      (parseControllerPair env entry [] pair2).1.map configuredFields :=
  ⟨⟨parseControllerList env (some (XmlRpcValue.asArray [entry])),
      parseControllerList_cons env before after entry,
      parseControllerList_cons env before2 after2 entry⟩,
    parseControllerPair_configuredFields env entry pair pair2⟩

/-- C24: if the loader cannot resolve the class of the nominal controller,
`setupControllerPair` returns false with the base manager unchanged, and among
the calls it logged there is no instantiation of an emergency controller and
no call of `addControllerPair`; and in every case `setupControllerPair` calls
`addControllerPair` at most once. -/
theorem setupControllerPair_failed_nominal_load_is_frame {M : Type} (env : Env M)
    (options : ControllerOptionsPair) (s : ManagerState M) :
    (env.classAvailable
        (if options.1.isRos_ = true then LoaderKind.controllerRosLoader_
         else LoaderKind.controllerLoader_) options.1.name_ = false →
      (setupControllerPair env options s).1 = some false ∧
      (setupControllerPair env options s).2.manager = s.manager ∧
      ∃ evs, (setupControllerPair env options s).2.log = s.log ++ evs ∧
        evs.filter Event.isEmergencyInstantiation = [] ∧
        evs.filter Event.isAddControllerPair = []) ∧
    ∃ evs, (setupControllerPair env options s).2.log = s.log ++ evs ∧
      (evs.filter Event.isAddControllerPair).length ≤ 1 := by
  have hkind : ∀ b : Bool, Event.isEmergencyInstantiation
      (Event.createUnmanagedInstance (nominalLoader options) options.1.name_ b) = false := by
    intro b
    unfold nominalLoader
    cases options.1.isRos_ <;> rfl
  have hloader : (if options.1.isRos_ = true then LoaderKind.controllerRosLoader_
      else LoaderKind.controllerLoader_) = nominalLoader options := rfl
  rw [setupControllerPair_eq, loadController_eq, loadEmergencyController_eq, hloader]
  by_cases hn : env.classAvailable (nominalLoader options) options.1.name_ = true
  · refine ⟨fun h => (by rw [hn] at h; cases h), ?_⟩
    by_cases he : options.2.name_ = ""
    · simp only [hn, he, if_true, addControllerPair, ManagerState.record]
      exact ⟨_, List.append_assoc _ [_] [_], by simp [List.filter, Event.isAddControllerPair]⟩
    · simp only [hn, he, if_true, if_false, addControllerPair, ManagerState.record]
      exact ⟨_, by rw [List.append_assoc, List.append_assoc],
        by simp [List.filter, Event.isAddControllerPair]⟩
  · simp only [Bool.not_eq_true] at hn
    simp only [hn, ManagerState.record]
    refine ⟨fun _ => ⟨rfl, rfl, _, rfl, ?_, ?_⟩, _, rfl, ?_⟩
    · simp [List.filter, hkind]
    · simp [List.filter, Event.isAddControllerPair]
    · simp [List.filter, Event.isAddControllerPair]

/-- Witness of C24: the nominal class `NOPE` is unknown; the emergency class
`STAND` could be loaded and is not asked for. -/
theorem setupControllerPair_failed_nominal_load_is_frame_witness :
    (demoEnv noParams).classAvailable LoaderKind.controllerLoader_ "NOPE" = false ∧
    (setupControllerPair (demoEnv noParams) (plainOptions "NOPE", plainOptions "STAND")
      { manager := ["WALK"], log := [] }).1 = some false ∧
    (setupControllerPair (demoEnv noParams) (plainOptions "NOPE", plainOptions "STAND")
      { manager := ["WALK"], log := [] }).2.manager = ["WALK"] :=
  ⟨by decide,
    ((setupControllerPair_failed_nominal_load_is_frame (demoEnv noParams)
      (plainOptions "NOPE", plainOptions "STAND") { manager := ["WALK"], log := [] }).1
      (by decide)).1,
    ((setupControllerPair_failed_nominal_load_is_frame (demoEnv noParams)
      (plainOptions "NOPE", plainOptions "STAND") { manager := ["WALK"], log := [] }).1
      (by decide)).2.1⟩

theorem parseControllerList_of_no_array {M : Type} (env : Env M)
    (controller_pair_list : Option XmlRpcValue)
    (hlist : ∀ entries, controller_pair_list ≠ some (XmlRpcValue.asArray entries)) :
    parseControllerList env controller_pair_list = [] := by
  unfold parseControllerList
  split
  · rfl
  · next entries => exact absurd rfl (hlist entries)
  · rfl

theorem getParamXmlRpc_eq {M : Type} (env : Env M) (key : String) (s : ManagerState M) :
    getParamXmlRpc env key s =
      (env.param key, s.record (Event.getParam key (env.param key).isSome)) := by
  unfold getParamXmlRpc
  cases env.param key <;> rfl

theorem setupControllers_nil {M : Type} (env : Env M) (failproofControllerName : String)
    (s : ManagerState M) :
    setupControllers env failproofControllerName [] s =
      (if (setupFailproofController env failproofControllerName s).1 = true then
        Outcome.returned (some true) else Outcome.exited (-1),
       (setupFailproofController env failproofControllerName s).2) := by
  unfold setupControllers
  rcases setupFailproofController env failproofControllerName s with ⟨b, s1⟩
  cases b <;> simp [setupControllerPairs]

/-- C25: with the failproof name readable and `controller_pairs` missing or not
an array, `setupControllersFromParameterServer` calls `setupControllers` with
the empty list: the result is the one of setting up the failproof controller
alone (true if it is set, exit otherwise), in the state that
`setupFailproofController` leaves, and nothing logged after the two reads sets
up a controller pair. -/
theorem setupControllersFromParameterServer_without_pairs {M : Type} (env : Env M)
    (s : ManagerState M) (failproofControllerName : String)
    (hname : env.param "controller_manager/failproof_controller"
      = some (XmlRpcValue.asString failproofControllerName))
    (hpairs : ∀ entries, env.param "controller_manager/controller_pairs"
      ≠ some (XmlRpcValue.asArray entries)) :
    setupControllersFromParameterServer env s =
      setupControllers env failproofControllerName []
        ((s.record (Event.getParam "controller_manager/failproof_controller" true)).record
          (Event.getParam "controller_manager/controller_pairs"
            (env.param "controller_manager/controller_pairs").isSome)) ∧
    setupControllersFromParameterServer env s =
      (if (setupFailproofController env failproofControllerName
            ((s.record (Event.getParam "controller_manager/failproof_controller" true)).record
              (Event.getParam "controller_manager/controller_pairs"
                (env.param "controller_manager/controller_pairs").isSome))).1 = true then
        Outcome.returned (some true) else Outcome.exited (-1),
       (setupFailproofController env failproofControllerName
          ((s.record (Event.getParam "controller_manager/failproof_controller" true)).record
            (Event.getParam "controller_manager/controller_pairs"
              (env.param "controller_manager/controller_pairs").isSome))).2) ∧
    ∃ evs, (setupControllersFromParameterServer env s).2.log =
        s.log ++ [Event.getParam "controller_manager/failproof_controller" true,
          Event.getParam "controller_manager/controller_pairs"
            (env.param "controller_manager/controller_pairs").isSome] ++ evs ∧
      ∀ e ∈ evs, e.isPairSetup = false := by
  have hcall : setupControllersFromParameterServer env s =
      setupControllers env failproofControllerName []
        ((s.record (Event.getParam "controller_manager/failproof_controller" true)).record
          (Event.getParam "controller_manager/controller_pairs"
            (env.param "controller_manager/controller_pairs").isSome)) := by
    unfold setupControllersFromParameterServer getParamString
    simp only [hname, getParamXmlRpc_eq]
    rw [parseControllerList_of_no_array env _ hpairs]
  refine ⟨hcall, ?_, ?_⟩
  · rw [hcall, setupControllers_nil]
  · rw [hcall, setupControllers_nil]
    obtain ⟨evs, hlog, hevs⟩ := setupFailproofController_log env failproofControllerName
      ((s.record (Event.getParam "controller_manager/failproof_controller" true)).record
        (Event.getParam "controller_manager/controller_pairs"
          (env.param "controller_manager/controller_pairs").isSome))
    refine ⟨evs, ?_, hevs⟩
    show (setupFailproofController env failproofControllerName _).2.log = _
    rw [hlog]
    simp [ManagerState.record]

/-- Witness of C25: `controller_pairs` is a string; the failproof controller
`FP` is set up and the result is true. -/
theorem setupControllersFromParameterServer_without_pairs_witness :
    (demoEnv noArrayParams).param "controller_manager/controller_pairs"
      = some (XmlRpcValue.asString "WALK") ∧
    setupControllersFromParameterServer (demoEnv noArrayParams) initialState =
      setupControllers (demoEnv noArrayParams) "FP" []
        ((initialState.record
            (Event.getParam "controller_manager/failproof_controller" true)).record
          (Event.getParam "controller_manager/controller_pairs" true)) ∧
    (setupControllersFromParameterServer (demoEnv noArrayParams) initialState).1 =
      Outcome.returned (some true) :=
  ⟨rfl,
    (setupControllersFromParameterServer_without_pairs (demoEnv noArrayParams) initialState "FP"
      rfl (by intro entries h; simp [demoEnv, noArrayParams] at h)).1,
    by decide⟩

end rocoma_ros
